import Mathlib

/-!
Verification of the reconciliation core of `plugins/modules/ndo_l3out_template.py`
(the `main` function for `state=present` and `state=absent`), shallowly embedded
in Lean 4. Python dicts are modelled as ordered association lists of JSON-like
values, module parameters as structures of `Option` fields (Python `None` =
`Option.none`), and `mso.fail_json` as an `Except` error.
-/

namespace NdoL3out

/-- JSON-like values, mirroring the Python values the module manipulates
(strings, ints, bools, `None`, and dicts with insertion order). -/
inductive Val : Type where
  | null : Val
  | str : String → Val
  | int : Int → Val
  | bool : Bool → Val
  | obj : List (String × Val) → Val

mutual

/-- Decidable equality on values (the deriving handler does not support the
nested `List` occurrence). -/
def Val.decEq : (a b : Val) → Decidable (a = b)
  | .null, .null => isTrue rfl
  | .str x, .str y =>
    if h : x = y then isTrue (h ▸ rfl) else isFalse (fun hc => h (Val.str.inj hc))
  | .int x, .int y =>
    if h : x = y then isTrue (h ▸ rfl) else isFalse (fun hc => h (Val.int.inj hc))
  | .bool x, .bool y =>
    if h : x = y then isTrue (h ▸ rfl) else isFalse (fun hc => h (Val.bool.inj hc))
  | .obj xs, .obj ys =>
    match Val.decEqFields xs ys with
    | isTrue h => isTrue (h ▸ rfl)
    | isFalse h => isFalse (fun hc => h (Val.obj.inj hc))
  | .null, .str _ => isFalse (fun h => Val.noConfusion h)
  | .null, .int _ => isFalse (fun h => Val.noConfusion h)
  | .null, .bool _ => isFalse (fun h => Val.noConfusion h)
  | .null, .obj _ => isFalse (fun h => Val.noConfusion h)
  | .str _, .null => isFalse (fun h => Val.noConfusion h)
  | .str _, .int _ => isFalse (fun h => Val.noConfusion h)
  | .str _, .bool _ => isFalse (fun h => Val.noConfusion h)
  | .str _, .obj _ => isFalse (fun h => Val.noConfusion h)
  | .int _, .null => isFalse (fun h => Val.noConfusion h)
  | .int _, .str _ => isFalse (fun h => Val.noConfusion h)
  | .int _, .bool _ => isFalse (fun h => Val.noConfusion h)
  | .int _, .obj _ => isFalse (fun h => Val.noConfusion h)
  | .bool _, .null => isFalse (fun h => Val.noConfusion h)
  | .bool _, .str _ => isFalse (fun h => Val.noConfusion h)
  | .bool _, .int _ => isFalse (fun h => Val.noConfusion h)
  | .bool _, .obj _ => isFalse (fun h => Val.noConfusion h)
  | .obj _, .null => isFalse (fun h => Val.noConfusion h)
  | .obj _, .str _ => isFalse (fun h => Val.noConfusion h)
  | .obj _, .int _ => isFalse (fun h => Val.noConfusion h)
  | .obj _, .bool _ => isFalse (fun h => Val.noConfusion h)

/-- Decidable equality on field lists, mutually with `Val.decEq`. -/
def Val.decEqFields : (xs ys : List (String × Val)) → Decidable (xs = ys)
  | [], [] => isTrue rfl
  | [], _ :: _ => isFalse (fun h => List.noConfusion h)
  | _ :: _, [] => isFalse (fun h => List.noConfusion h)
  | (k, v) :: xs, (k2, v2) :: ys =>
    if h1 : k = k2 then
      match Val.decEq v v2 with
      | isTrue h2 =>
        match Val.decEqFields xs ys with
        | isTrue h3 => isTrue (by rw [h1, h2, h3])
        | isFalse h3 => isFalse (fun hc => by injection hc with hh ht; exact h3 ht)
      | isFalse h2 =>
        isFalse (fun hc => by
          injection hc with hh ht
          injection hh with hk hv
          exact h2 hv)
    else
      isFalse (fun hc => by
        injection hc with hh ht
        injection hh with hk hv
        exact h1 hk)

end

instance : DecidableEq Val := Val.decEq

/-- A Python dict: ordered association list (keys unique by construction). -/
abbrev Dict := List (String × Val)

/-- Python truthiness of a value (`bool(v)`). -/
def Val.truthy : Val → Bool
  | .null => false
  | .str s => s ≠ ""
  | .int n => n ≠ 0
  | .bool b => b
  | .obj fs => !fs.isEmpty

/-- Python `d.get(k)`: the value at `k`, or `None` when the key is missing. -/
def dget (d : Dict) (k : String) : Val :=
  match d.lookup k with
  | some v => v
  | none => .null

/-- Python `d.get(k, default)`, used with a dict default. -/
def dgetD (d : Dict) (k : String) (dflt : Val) : Val :=
  match d.lookup k with
  | some v => v
  | none => dflt

/-- Python `v.get(k)` on a nested dict value; `None` if the key is missing.
Backend data only ever stores dicts at the nested positions read here. -/
def Val.get : Val → String → Val
  | .obj fs, k =>
    match fs.lookup k with
    | some v => v
    | none => .null
  | _, _ => .null

/-- Python `v.get(k, default)` on a nested dict value. -/
def Val.getD : Val → String → Val → Val
  | .obj fs, k, dflt =>
    match fs.lookup k with
    | some v => v
    | none => dflt
  | _, _, _ => .null

/-- Python `d[k] = v`: update in place when the key exists (keeping its
position), otherwise append, preserving insertion order. -/
def dset (d : Dict) (k : String) (v : Val) : Dict :=
  match d with
  | [] => [(k, v)]
  | (k', v') :: rest => if k' = k then (k, v) :: rest else (k', v') :: dset rest k v

/-- Python `del d[k]`. -/
def ddel (d : Dict) (k : String) : Dict :=
  d.filter (fun kv => kv.1 ≠ k)

/-- Truthiness of an optional Python string (`None` and `""` are falsy). -/
def strOptTruthy : Option String → Bool
  | none => false
  | some s => s ≠ ""

/-- Truthiness of an optional Python bool (`None` and `False` are falsy). -/
def boolOptTruthy : Option Bool → Bool
  | none => false
  | some b => b

/-- Inject an optional Python string into a value (`None` stays `None`). -/
def optValStr : Option String → Val
  | none => .null
  | some s => .str s

/-- Inject an optional Python int into a value. -/
def optValInt : Option Int → Val
  | none => .null
  | some n => .int n

/-- Inject an optional Python bool into a value. -/
def optValBool : Option Bool → Val
  | none => .null
  | some b => .bool b

/-- One patch operation: `dict(op=..., path=..., value=...)`; `remove`
operations carry no value. -/
structure Op where
  op : String
  path : String
  value : Option Val
deriving DecidableEq

/-- The `vrf` module parameter (all three sub-keys required). -/
structure VrfRef where
  name : String
  schema : String
  template : String
deriving DecidableEq

/-- The VRF object resolved by `get_vrf_object`: its backend `uuid` and its
`l3MCast` flag (absent when the backend omits it). -/
structure VrfObj where
  uuid : String
  l3MCast : Option Bool
deriving DecidableEq

/-- A compound sub-structure parameter (`ospf`, `bgp`): not given at all,
given as the empty dict, or given with children (an Ansible-normalized
non-empty dict, which is always truthy). -/
inductive SubIn (α : Type) where
  | absent : SubIn α
  | empty : SubIn α
  | given : α → SubIn α
deriving DecidableEq

/-- Mirrors `x = module.params.get(k) if module.params.get(k) else {}`
(line 420-422): both `None` and the empty dict collapse to the empty dict,
modelled as `none`. -/
def SubIn.collapse : SubIn α → Option α
  | .absent => none
  | .empty => none
  | .given a => some a

/-- The `ospf` sub-options dict after Ansible normalization. -/
structure OspfCfg where
  area_id : Option String
  area_type : Option String
  cost : Option Int
  send_redistributed_lsas : Option Bool
  originate_summary_lsa : Option Bool
  suppress_forwarding_addr_translated_lsa : Option Bool
  originate_default_route : Option String
  originate_default_route_always : Option Bool
deriving DecidableEq

/-- The `bgp` sub-options dict after Ansible normalization. -/
structure BgpCfg where
  inbound_route_map : Option String
  outbound_route_map : Option String
  route_dampening_ipv4 : Option String
  route_dampening_ipv6 : Option String
deriving DecidableEq

/-- The module parameters relevant to the reconciliation core, after Ansible
parsing. `target_dscp` holds the value already sent through
`TARGET_DSCP_MAP.get` (line 419); that map (in `constants.py`, outside this
tree) sends every documented choice to a non-empty backend string. -/
structure Params where
  name : Option String
  uuid : Option String
  description : Option String
  vrf : Option VrfRef
  l3_domain : Option String
  target_dscp : Option String
  pim : Option Bool
  interleak : Option String
  static_route_redistribution : Option String
  connected_route_redistribution : Option String
  attached_host_route_redistribution : Option String
  ospf : SubIn OspfCfg
  bgp : SubIn BgpCfg
deriving DecidableEq

/-- The read-only collections the run resolves names against: the tenant's
route-map objects (name to uuid) and the VRF objects addressable by the
`vrf` parameter triple. -/
structure Env where
  routeMaps : List (String × String)
  vrfs : List (VrfRef × VrfObj)
deriving DecidableEq

/-- The ways a run aborts via `mso.fail_json` (or a Python error):
`notFound` (line 470-471), `referenceNotFound` (name resolution fails),
`validationConflict` (line 481-486), and `keyError` for the
`payload[k][k2]` assignments when `k` is missing. -/
inductive Fail : Type where
  | notFound : String → Fail
  | referenceNotFound : String → Fail
  | validationConflict : Fail
  | keyError : String → Fail
deriving DecidableEq

/-- Modelled from the spec: `MSOTemplate.get_route_map(...)` (in
`module_utils/template.py`, outside this tree) followed by the caller's
`.get("uuid", "")`. An empty requested name resolves to the empty string and
is skipped by the caller; a non-empty name resolves to the object's uuid
within the tenant-scoped collection, by exact match, or aborts with
`ReferenceNotFound`. -/
def get_route_map (env : Env) (name : String) : Except Fail String :=
  if name = "" then .ok ""
  else
    match env.routeMaps.lookup name with
    | some u => .ok u
    | none => .error (.referenceNotFound name)

/-- Modelled from the spec: `MSOTemplate.get_vrf_object(...)` (outside this
tree) resolves the `vrf` parameter triple within the tenant scope or aborts
with `ReferenceNotFound`. -/
def get_vrf_object (env : Env) (v : VrfRef) : Except Fail VrfObj :=
  match env.vrfs.lookup v with
  | some o => .ok o
  | none => .error (.referenceNotFound v.name)

/-- A located L3Out: its position in the ordered collection and its dict. -/
structure Found where
  index : Nat
  details : Dict
deriving DecidableEq

/-- `get_object_from_list`: scan in sequence order for the first entity whose
`key` field equals `v`, returning its position and dict. -/
def findL3out : Nat → List Dict → String → Val → Option Found
  | _, [], _, _ => none
  | i, d :: rest, k, v =>
    if dget d k = v then some ⟨i, d⟩ else findL3out (i + 1) rest k v

/-- Lines 442-451: locate the target entity only when the collection is
non-empty and a truthy `name` or `uuid` was given, preferring `uuid`. -/
def locate (p : Params) (l3outs : List Dict) : Option Found :=
  if !l3outs.isEmpty && (strOptTruthy p.name || strOptTruthy p.uuid) then
    if strOptTruthy p.uuid then findL3out 0 l3outs "uuid" (.str (p.uuid.getD ""))
    else findL3out 0 l3outs "name" (.str (p.name.getD ""))
  else none

/-- The path prefix `/l3outTemplate/l3outs/{index}` (line 638). -/
def attrsPath (index : Nat) : String :=
  "/l3outTemplate/l3outs/" ++ toString index

/-- Lines 489-499: derive `routing_protocols` from which sub-sections were
supplied this run; `none` models Python `None` (update with neither supplied)
and `some ""` the initial create-mode value. -/
def routingProtocols (existingFound : Bool) (bgp : Option BgpCfg) (ospf : Option OspfCfg) :
    Option String :=
  match bgp, ospf with
  | some _, some _ => some "bgpOspf"
  | some _, none => some "bgp"
  | none, some _ => some "ospf"
  | none, none => if existingFound then none else some ""

/-- Modelled from the spec: the `ORIGINATE_DEFAULT_ROUTE` constant map (in
`constants.py`, outside this tree); its keys are the documented choices
`only`, `in_addition` and the empty string, and the empty string maps to the
empty string (line 815 tests the mapped value against it). -/
def ORIGINATE_DEFAULT_ROUTE_get : Option String → Option String
  | some "only" => some "only"
  | some "in_addition" => some "inAddition"
  | some "" => some ""
  | _ => none

/-- Lines 457-461: the `name` variable in the update branch: the parameter
when truthy, otherwise the stored name (Python `None` when neither). -/
def nameVOf (p : Params) (existing : Dict) : Val :=
  if strOptTruthy p.name then .str (p.name.getD "") else dget existing "name"

/-- Lines 640-675: the scalar-field comparisons of the update branch, in
source order (`name`, `vrfRef`, `description`, `l3domain`, `targetDscp`,
`pim`, `routingProtocol`), followed by the `advancedRouteMapRefs` container
creation (lines 668-675). `nameV` is the `name` variable after lines
457-461, `vrf_ref` the resolved VRF uuid, `rp` the derived
`routing_protocols`. -/
def scalarFieldOps {α : Type} (param : Option α) (inj : α → Val) (curr : Val)
    (path : String) : List Op :=
  match param with
  | some x => if curr ≠ inj x then [⟨"replace", path, some (inj x)⟩] else []
  | none => []

/-- Lines 664-666: the derived `routingProtocol` write: only when the
derived value is not `None`, not empty, and differs from the stored value. -/
def rpFieldOps (rp : Option String) (curr : Val) (path : String) : List Op :=
  match rp with
  | some s => if s ≠ "" ∧ curr ≠ .str s then [⟨"replace", path, some (.str s)⟩] else []
  | none => []

def updateScalarOps (p : Params) (existing : Dict) (ap : String) (nameV : Val)
    (vrf_ref : Option String) (rp : Option String) : List Op :=
  (if nameV ≠ .null ∧ dget existing "name" ≠ nameV then
    [⟨"replace", ap ++ "/name", some nameV⟩] else [])
  ++ scalarFieldOps vrf_ref Val.str (dget existing "vrfRef") (ap ++ "/vrfRef")
  ++ scalarFieldOps p.description Val.str (dget existing "description") (ap ++ "/description")
  ++ scalarFieldOps p.l3_domain Val.str (dget existing "l3domain") (ap ++ "/l3domain")
  ++ scalarFieldOps p.target_dscp Val.str (dget existing "targetDscp") (ap ++ "/targetDscp")
  ++ scalarFieldOps p.pim Val.bool (dget existing "pim") (ap ++ "/pim")
  ++ rpFieldOps rp (dget existing "routingProtocol") (ap ++ "/routingProtocol")
  ++ (if (p.interleak.isSome ∨ p.static_route_redistribution.isSome ∨
        p.connected_route_redistribution.isSome ∨
        p.attached_host_route_redistribution.isSome) ∧
        ¬(dget existing "advancedRouteMapRefs").truthy then
      [⟨"add", ap ++ "/advancedRouteMapRefs", some (.obj [])⟩] else [])

/-- Lines 679-748 and 768-809: the shared shape of one update-mode route-map
field: when the parameter was given (not `None`), resolve it; emit one
`replace` at `path` only when the resolved uuid is truthy and differs from
the current stored value `curr`. -/
def routeMapFieldOps (env : Env) (param : Option String) (curr : Val) (path : String) :
    Except Fail (List Op) :=
  match param with
  | none => .ok []
  | some s =>
    match get_route_map env s with
    | .error e => .error e
    | .ok r =>
      .ok (if r ≠ "" ∧ curr ≠ .str r then [⟨"replace", path, some (.str r)⟩] else [])

/-- Lines 753-766: the `inbound_route_map` update, which emits the
`importRouteMapRef` replace together with the `importRouteControl` replace. -/
def inboundRouteMapOps (env : Env) (param : Option String) (curr : Val) (ap : String) :
    Except Fail (List Op) :=
  match param with
  | none => .ok []
  | some s =>
    match get_route_map env s with
    | .error e => .error e
    | .ok r =>
      .ok (if r ≠ "" ∧ curr ≠ .str r then
        [⟨"replace", ap ++ "/importRouteMapRef", some (.str r)⟩,
         ⟨"replace", ap ++ "/importRouteControl", some (.bool (r ≠ ""))⟩]
      else [])

/-- Lines 752-809: the `if bgp:` update block, in source order. -/
def bgpUpdateOps (env : Env) (bgp : Option BgpCfg) (existing : Dict) (ap : String) :
    Except Fail (List Op) :=
  match bgp with
  | none => .ok []
  | some b =>
    match inboundRouteMapOps env b.inbound_route_map (dget existing "importRouteMapRef") ap with
    | .error er => .error er
    | .ok i =>
      match routeMapFieldOps env b.outbound_route_map (dget existing "exportRouteMapRef")
          (ap ++ "/exportRouteMapRef") with
      | .error er => .error er
      | .ok e =>
        match routeMapFieldOps env b.route_dampening_ipv4
            (Val.get (dgetD existing "advancedRouteMapRefs" (.obj [])) "routeDampeningV4Ref")
            (ap ++ "/advancedRouteMapRefs/routeDampeningV4Ref") with
        | .error er => .error er
        | .ok d4 =>
          match routeMapFieldOps env b.route_dampening_ipv6
              (Val.get (dgetD existing "advancedRouteMapRefs" (.obj [])) "routeDampeningV6Ref")
              (ap ++ "/advancedRouteMapRefs/routeDampeningV6Ref") with
          | .error er => .error er
          | .ok d6 => .ok (i ++ e ++ d4 ++ d6)

/-- Lines 830-832 and 865-875: the shared shape of a presence-guarded child
comparison `x is not None and x != curr`. -/
def childFieldOps {α : Type} (param : Option α) (inj : α → Val) (curr : Val)
    (path : String) : List Op :=
  match param with
  | some x => if inj x ≠ curr then [⟨"replace", path, some (inj x)⟩] else []
  | none => []

/-- Lines 812-837: the operations of the `defaultRouteLeak` part of the
`if ospf:` update block. -/
def defaultRouteLeakOps (o : OspfCfg) (existing : Dict) (ap : String) : List Op :=
  match ORIGINATE_DEFAULT_ROUTE_get o.originate_default_route with
  | some s =>
    if s ≠ "" then
      (if ¬(dget existing "defaultRouteLeak").truthy then
        [⟨"replace", ap ++ "/defaultRouteLeak", some (.obj [])⟩] else [])
      ++ (if Val.str s ≠
            Val.get (dgetD existing "defaultRouteLeak" (.obj [])) "originateDefaultRoute" then
          [⟨"replace", ap ++ "/defaultRouteLeak/originateDefaultRoute", some (.str s)⟩]
        else [])
      ++ childFieldOps o.originate_default_route_always Val.bool
          (Val.get (dgetD existing "defaultRouteLeak" (.obj [])) "always")
          (ap ++ "/defaultRouteLeak/always")
    else if (dget existing "defaultRouteLeak").truthy then
      [⟨"remove", ap ++ "/defaultRouteLeak", none⟩]
    else []
  | none => []

/-- Line 837: the working copy of the entity after the `defaultRouteLeak`
part (`del mso.existing["defaultRouteLeak"]` exactly in the elif branch). -/
def defaultRouteLeakExisting (o : OspfCfg) (existing : Dict) : Dict :=
  if ORIGINATE_DEFAULT_ROUTE_get o.originate_default_route = some "" ∧
      (dget existing "defaultRouteLeak").truthy then
    ddel existing "defaultRouteLeak"
  else existing

/-- Lines 843-875: the child operations of the `if ospf:` update block: the
three area children, the `control` container, and the three control
children, all compared against the working copy `ex2`. -/
def ospfAreaChildOps (o : OspfCfg) (ex2 : Dict) (ap : String) : List Op :=
  (if optValInt o.cost ≠ Val.get (dgetD ex2 "ospfAreaConfig" (.obj [])) "cost" then
      [⟨"replace", ap ++ "/ospfAreaConfig/cost", some (optValInt o.cost)⟩] else [])
  ++ (if optValStr o.area_id ≠ Val.get (dgetD ex2 "ospfAreaConfig" (.obj [])) "id" then
      [⟨"replace", ap ++ "/ospfAreaConfig/id", some (optValStr o.area_id)⟩] else [])
  ++ (if optValStr o.area_type ≠ Val.get (dgetD ex2 "ospfAreaConfig" (.obj [])) "areaType" then
      [⟨"replace", ap ++ "/ospfAreaConfig/areaType", some (optValStr o.area_type)⟩] else [])
  ++ (if (o.send_redistributed_lsas.isSome ∨ o.originate_summary_lsa.isSome ∨
        o.suppress_forwarding_addr_translated_lsa.isSome) ∧
        ¬(Val.get (dgetD ex2 "ospfAreaConfig" (.obj [])) "control").truthy then
      [⟨"replace", ap ++ "/ospfAreaConfig/control", some (.obj [])⟩] else [])
  ++ childFieldOps o.send_redistributed_lsas Val.bool
      (Val.get (Val.getD (dgetD ex2 "ospfAreaConfig" (.obj [])) "control" (.obj []))
        "redistribute")
      (ap ++ "/ospfAreaConfig/control/redistribute")
  ++ childFieldOps o.originate_summary_lsa Val.bool
      (Val.get (Val.getD (dgetD ex2 "ospfAreaConfig" (.obj [])) "control" (.obj []))
        "originate")
      (ap ++ "/ospfAreaConfig/control/originate")
  ++ childFieldOps o.suppress_forwarding_addr_translated_lsa Val.bool
      (Val.get (Val.getD (dgetD ex2 "ospfAreaConfig" (.obj [])) "control" (.obj []))
        "suppressFA")
      (ap ++ "/ospfAreaConfig/control/suppressFA")

/-- Lines 811-875: the `if ospf:` update block, in source order:
`defaultRouteLeak` handling, `ospfAreaConfig` container creation when the
working copy has none, then the child operations. -/
def ospfUpdateOps (o : OspfCfg) (existing : Dict) (ap : String) : List Op :=
  let ex2 := defaultRouteLeakExisting o existing
  defaultRouteLeakOps o existing ap
  ++ (if ¬(dget ex2 "ospfAreaConfig").truthy then
      [⟨"replace", ap ++ "/ospfAreaConfig", some (.obj [])⟩] else [])
  ++ ospfAreaChildOps o ex2 ap

/-- Lines 811-880: either the `if ospf:` block or the `elif` that removes
`ospfAreaConfig` when `ospf` is falsy (line 877-880). -/
def ospfChoiceOps (ospf : Option OspfCfg) (existing : Dict) (ap : String) : List Op :=
  match ospf with
  | some o => ospfUpdateOps o existing ap
  | none =>
    if (dget existing "ospfAreaConfig").truthy then
      [⟨"remove", ap ++ "/ospfAreaConfig", none⟩]
    else []

/-- Lines 636-883: the complete update branch, producing `update_ops` in
source order. -/
def updateOps (env : Env) (p : Params) (f : Found) (vrf_ref : Option String)
    (bgp : Option BgpCfg) (ospf : Option OspfCfg) (rp : Option String) :
    Except Fail (List Op) :=
  let existing := f.details
  let ap := attrsPath f.index
  let o1 := updateScalarOps p existing ap (nameVOf p existing) vrf_ref rp
  match routeMapFieldOps env p.interleak
      (Val.get (dgetD existing "advancedRouteMapRefs" (.obj [])) "interleakRef")
      (ap ++ "/advancedRouteMapRefs/interleakRef") with
  | .error er => .error er
  | .ok o2 =>
    match routeMapFieldOps env p.static_route_redistribution
        (Val.get (dgetD existing "advancedRouteMapRefs" (.obj [])) "staticRouteRedistRef")
        (ap ++ "/advancedRouteMapRefs/staticRouteRedistRef") with
    | .error er => .error er
    | .ok o3 =>
      match routeMapFieldOps env p.connected_route_redistribution
          (Val.get (dgetD existing "advancedRouteMapRefs" (.obj [])) "connectedRouteRedistRef")
          (ap ++ "/advancedRouteMapRefs/connectedRouteRedistRef") with
      | .error er => .error er
      | .ok o4 =>
        match routeMapFieldOps env p.attached_host_route_redistribution
            (Val.get (dgetD existing "advancedRouteMapRefs" (.obj []))
              "attachedHostRouteRedistRef")
            (ap ++ "/advancedRouteMapRefs/attachedHostRouteRedistRef") with
        | .error er => .error er
        | .ok o5 =>
          match bgpUpdateOps env bgp existing ap with
          | .error er => .error er
          | .ok o6 => .ok (o1 ++ o2 ++ o3 ++ o4 ++ o5 ++ o6 ++ ospfChoiceOps ospf existing ap)

/-- Python `d[k][k2] = v`: a `KeyError` when `k` is missing (the source hits
this when a `route_dampening` option is given without any of the four outer
route maps in create mode); backend shapes make the non-dict case
unreachable, folded into the same failure. -/
def dsetNested (d : Dict) (k k2 : String) (v : Val) : Except Fail Dict :=
  match d.lookup k with
  | some (.obj o) => .ok (dset d k (.obj (dset o k2 v)))
  | some _ => .error (.keyError k)
  | none => .error (.keyError k)

/-- Lines 522-556 and 562-580: the shared create-mode shape `if param:
resolve and store under key`, skipping falsy parameters. -/
def addRouteMapRef (env : Env) (param : Option String) (key : String) (d : Dict) :
    Except Fail Dict :=
  if strOptTruthy param then
    match get_route_map env (param.getD "") with
    | .error e => .error e
    | .ok r => .ok (dset d key (.str r))
  else .ok d

/-- Lines 582-598: the create-mode shape for the two route-dampening refs,
stored inside `payload["advancedRouteMapRefs"]` (a `KeyError` when that key
was never created). -/
def addDampeningRef (env : Env) (param : Option String) (key : String) (d : Dict) :
    Except Fail Dict :=
  if strOptTruthy param then
    match get_route_map env (param.getD "") with
    | .error e => .error e
    | .ok r => dsetNested d "advancedRouteMapRefs" key (.str r)
  else .ok d

/-- Lines 521-558: `outer_route_maps` in create mode, built in source order
from the four truthiness-guarded outer route-map parameters. -/
def createOuterRouteMaps (env : Env) (p : Params) : Except Fail Dict :=
  match addRouteMapRef env p.interleak "interleakRef" [] with
  | .error e => .error e
  | .ok d1 =>
    match addRouteMapRef env p.static_route_redistribution "staticRouteRedistRef" d1 with
    | .error e => .error e
    | .ok d2 =>
      match addRouteMapRef env p.connected_route_redistribution "connectedRouteRedistRef" d2 with
      | .error e => .error e
      | .ok d3 =>
        addRouteMapRef env p.attached_host_route_redistribution "attachedHostRouteRedistRef" d3

/-- Lines 561-598: the `if bgp:` additions to the create payload, in source
order; `importRouteControl` is always written once `bgp` is truthy, from the
truthiness of the `importRouteMapRef` entry just written (line 571). -/
def createBgpPart (env : Env) (b : BgpCfg) (payload : Dict) : Except Fail Dict :=
  match addRouteMapRef env b.inbound_route_map "importRouteMapRef" payload with
  | .error e => .error e
  | .ok p1 =>
    let p2 := dset p1 "importRouteControl" (.bool (dget p1 "importRouteMapRef").truthy)
    match addRouteMapRef env b.outbound_route_map "exportRouteMapRef" p2 with
    | .error e => .error e
    | .ok p3 =>
      match addDampeningRef env b.route_dampening_ipv4 "routeDampeningV4Ref" p3 with
      | .error e => .error e
      | .ok p4 => addDampeningRef env b.route_dampening_ipv6 "routeDampeningV6Ref" p4

/-- Lines 621-631: the `control` sub-dict of the create payload. -/
def ospfControlDict (o : OspfCfg) : Dict :=
  (match o.send_redistributed_lsas with
    | some b => [("redistribute", .bool b)]
    | none => [])
  ++ (match o.originate_summary_lsa with
    | some b => [("originate", .bool b)]
    | none => [])
  ++ (match o.suppress_forwarding_addr_translated_lsa with
    | some b => [("suppressFA", .bool b)]
    | none => [])

/-- Lines 601-605 and 631-632: the `ospfAreaConfig` dict of the create
payload, with the `control` sub-dict attached after the three area keys when
non-empty. -/
def ospfAreaDict (o : OspfCfg) : Dict :=
  [("cost", optValInt o.cost), ("id", optValStr o.area_id),
   ("areaType", optValStr o.area_type)]
  ++ (if (ospfControlDict o).isEmpty then [] else [("control", .obj (ospfControlDict o))])

/-- Lines 607-612: the `defaultRouteLeak` dict of the create payload. -/
def ospfDrlDict (o : OspfCfg) : Dict :=
  (if strOptTruthy o.originate_default_route then
    [("originateDefaultRoute",
      optValStr (ORIGINATE_DEFAULT_ROUTE_get o.originate_default_route))]
  else [])
  ++ (match o.originate_default_route_always with
    | some b => [("always", .bool b)]
    | none => [])

/-- Lines 600-632: the `if ospf:` additions to the create payload:
`ospfAreaConfig` always, `defaultRouteLeak` only when non-empty, exactly as
the in-place mutations leave them. -/
def createOspfPart (o : OspfCfg) (payload : Dict) : Dict :=
  let p1 := dset payload "ospfAreaConfig" (.obj (ospfAreaDict o))
  if (ospfDrlDict o).isEmpty then p1 else dset p1 "defaultRouteLeak" (.obj (ospfDrlDict o))

/-- Lines 501-519: the scalar fields of the create-mode payload: `name` and
`vrfRef` always, then the truthiness- or presence-guarded optional scalars
and the derived protocol. -/
def createScalarPayload (p : Params) (name : String) (vrf_ref : Option String)
    (rp : Option String) : Dict :=
  let pl0 : Dict := [("name", .str name), ("vrfRef", optValStr vrf_ref)]
  let pl1 := if strOptTruthy p.description then
    dset pl0 "description" (.str (p.description.getD "")) else pl0
  let pl2 := if strOptTruthy p.l3_domain then
    dset pl1 "l3domain" (.str (p.l3_domain.getD "")) else pl1
  let pl3 := if strOptTruthy p.target_dscp then
    dset pl2 "targetDscp" (.str (p.target_dscp.getD "")) else pl2
  let pl4 := match p.pim with
    | some b => dset pl3 "pim" (.bool b)
    | none => pl3
  if strOptTruthy rp then
    dset pl4 "routingProtocol" (.str (rp.getD "")) else pl4

/-- The `if bgp:` step of the create payload (lines 561-598), skipped when
`bgp` is falsy. -/
def createBgpPartOpt (env : Env) (bgp : Option BgpCfg) (payload : Dict) :
    Except Fail Dict :=
  match bgp with
  | some b => createBgpPart env b payload
  | none => .ok payload

/-- The `if ospf:` step of the create payload (lines 600-632), skipped when
`ospf` is falsy. -/
def createOspfPartOpt (ospf : Option OspfCfg) (payload : Dict) : Dict :=
  match ospf with
  | some o => createOspfPart o payload
  | none => payload

/-- Lines 501-632: the create-mode payload, a sparse dict that starts from
`name` and `vrfRef` and adds only truthiness- or presence-guarded fields. -/
def createPayload (env : Env) (p : Params) (name : String) (vrf_ref : Option String)
    (bgp : Option BgpCfg) (ospf : Option OspfCfg) (rp : Option String) :
    Except Fail Dict :=
  let pl5 := createScalarPayload p name vrf_ref rp
  match createOuterRouteMaps env p with
  | .error e => .error e
  | .ok outer =>
    let pl6 := if ¬outer.isEmpty then dset pl5 "advancedRouteMapRefs" (.obj outer) else pl5
    match createBgpPartOpt env bgp pl6 with
    | .error e => .error e
    | .ok pl7 => .ok (createOspfPartOpt ospf pl7)

/-- Lines 478-487: resolve the `vrf` parameter (when supplied) to its uuid,
first failing on the pim/L3-multicast business rule (lines 481-486). -/
def vrfResolve (env : Env) (p : Params) : Except Fail (Option String) :=
  match p.vrf with
  | none => .ok none
  | some v =>
    match get_vrf_object env v with
    | .error e => .error e
    | .ok vo =>
      if boolOptTruthy p.pim ∧ vo.l3MCast = some false then .error .validationConflict
      else .ok (some vo.uuid)

/-- Lines 469-635 and 636-883: the `state == "present"` branch, producing
the final `ops` list or aborting through `mso.fail_json`. Aborts are
fail-fast: once a failure occurs nothing later runs, so no operations are
produced and no mutation is sent. -/
def presentRun (env : Env) (p : Params) (l3outs : List Dict) : Except Fail (List Op) :=
  let ospf := p.ospf.collapse
  let bgp := p.bgp.collapse
  if strOptTruthy p.uuid ∧ locate p l3outs = none then
    .error (.notFound (p.uuid.getD ""))
  else
    match vrfResolve env p with
    | .error e => .error e
    | .ok vrf_ref =>
      match locate p l3outs with
      | none =>
        if strOptTruthy p.name then
          match createPayload env p (p.name.getD "") vrf_ref bgp ospf
              (routingProtocols false bgp ospf) with
          | .error e => .error e
          | .ok payload => .ok [⟨"add", "/l3outTemplate/l3outs/-", some (.obj payload)⟩]
        else .ok []
      | some f => updateOps env p f vrf_ref bgp ospf (routingProtocols true bgp ospf)

/-- Lines 437 and 887-890: the `state == "absent"` branch. An empty
collection exits early with no operations; otherwise a located entity yields
the single positional remove, and no match yields no operations. -/
def absentOps (p : Params) (l3outs : List Dict) : List Op :=
  if l3outs.isEmpty then []
  else
    match locate p l3outs with
    | some f => [⟨"remove", attrsPath f.index, none⟩]
    | none => []

/-- Lines 892-894: the PATCH request is sent exactly when not in check mode
and the operation list is non-empty; `none` means no mutation request. -/
def submit (checkMode : Bool) (ops : List Op) : Option (List Op) :=
  if ¬checkMode ∧ ops ≠ [] then some ops else none

/-- A full `state=present` invocation: the computed operations together with
the mutation request that is sent (if any). -/
def runPresent (env : Env) (p : Params) (l3outs : List Dict) (checkMode : Bool) :
    Except Fail (List Op × Option (List Op)) :=
  match presentRun env p l3outs with
  | .error e => .error e
  | .ok ops => .ok (ops, submit checkMode ops)

/-- A full `state=absent` invocation (the absent branch cannot abort). -/
def runAbsent (p : Params) (l3outs : List Dict) (checkMode : Bool) :
    List Op × Option (List Op) :=
  let ops := absentOps p l3outs
  (ops, submit checkMode ops)

/-- The operations of a list addressed at a given path. -/
def opsAt (ops : List Op) (path : String) : List Op :=
  ops.filter (fun o => o.path = path)

/-- The scalar-block suffixes under the entity path, in source order. -/
def scalarSufs : List String :=
  ["/name", "/vrfRef", "/description", "/l3domain", "/targetDscp", "/pim",
   "/routingProtocol", "/advancedRouteMapRefs"]

/-- The bgp-block suffixes under the entity path. -/
def bgpSufs : List String :=
  ["/importRouteMapRef", "/importRouteControl", "/exportRouteMapRef",
   "/advancedRouteMapRefs/routeDampeningV4Ref", "/advancedRouteMapRefs/routeDampeningV6Ref"]

/-- The ospf-block suffixes under the entity path. -/
def ospfSufs : List String :=
  ["/defaultRouteLeak", "/defaultRouteLeak/originateDefaultRoute", "/defaultRouteLeak/always",
   "/ospfAreaConfig", "/ospfAreaConfig/cost", "/ospfAreaConfig/id", "/ospfAreaConfig/areaType",
   "/ospfAreaConfig/control", "/ospfAreaConfig/control/redistribute",
   "/ospfAreaConfig/control/originate", "/ospfAreaConfig/control/suppressFA"]

/-- The ospf child suffixes strictly under the `ospfAreaConfig` container. -/
def ospfChildSufs : List String :=
  ["/ospfAreaConfig/cost", "/ospfAreaConfig/id", "/ospfAreaConfig/areaType",
   "/ospfAreaConfig/control", "/ospfAreaConfig/control/redistribute",
   "/ospfAreaConfig/control/originate", "/ospfAreaConfig/control/suppressFA"]

/-- The empty read-only environment. -/
def envNil : Env := ⟨[], []⟩

/-- A stored entity whose `routingProtocol` is `ospf`. -/
def entityRp : Dict :=
  [("uuid", .str "u1"), ("name", .str "l3out_1"), ("routingProtocol", .str "ospf")]

/-- A `bgp` sub-options dict with no children set. -/
def bgpNone : BgpCfg := ⟨none, none, none, none⟩

/-- Parameters supplying only `uuid` and a truthy `bgp` dict. -/
def paramsBgpOnly : Params :=
  ⟨none, some "u1", none, none, none, none, none, none, none, none, none, .absent,
   .given bgpNone⟩

/-- Entities for the position-2 description scenario. -/
def entityD0 : Dict := [("uuid", .str "u0"), ("name", .str "n0")]

def entityD1 : Dict := [("uuid", .str "u1"), ("name", .str "n1")]

def entityD2 : Dict := [("uuid", .str "u3"), ("name", .str "n2"), ("description", .str "a")]

/-- Parameters supplying only `uuid` and `description = "b"`. -/
def paramsDesc : Params :=
  ⟨none, some "u3", some "b", none, none, none, none, none, none, none, none, .absent, .absent⟩

/-- An entity with no stored `pim` flag. -/
def entityPim : Dict := [("uuid", .str "u1"), ("name", .str "l3out_1")]

/-- Parameters supplying only `uuid` and `pim = true`, without `vrf`. -/
def paramsPimNoVrf : Params :=
  ⟨none, some "u1", none, none, none, none, some true, none, none, none, none, .absent,
   .absent⟩

/-- The `vrf` parameter triple used in concrete runs. -/
def vrfTriple : VrfRef := ⟨"VRF1", "Schema1", "Template1"⟩

/-- An environment whose only VRF has L3 multicast disabled. -/
def envMcastOff : Env := ⟨[], [(vrfTriple, ⟨"V1", some false⟩)]⟩

/-- An entity carrying a stored `ospfAreaConfig`. -/
def entityOspf : Dict :=
  [("uuid", .str "u1"), ("name", .str "l3out_1"),
   ("ospfAreaConfig", .obj [("cost", .int 1), ("id", .str "0.0.0.1"),
     ("areaType", .str "regular")])]

/-- Parameters supplying only `uuid` and `ospf = {}`. -/
def paramsOspfEmpty : Params :=
  ⟨none, some "u1", none, none, none, none, none, none, none, none, none, .empty, .absent⟩

/-- An `ospf` sub-options dict carrying only the three required children. -/
def ospfChildren : OspfCfg :=
  ⟨some "0.0.0.1", some "regular", some 10, none, none, none, none, none⟩

/-- Parameters supplying only `uuid` and an `ospf` dict with children. -/
def paramsOspfChildren : Params :=
  ⟨none, some "u1", none, none, none, none, none, none, none, none, none,
   .given ospfChildren, .absent⟩

/-- An environment whose only VRF has L3 multicast enabled. -/
def envVrf : Env := ⟨[], [(vrfTriple, ⟨"V1", some true⟩)]⟩

/-- Parameters for the create scenario: `name` and `vrf` only. -/
def paramsCreate : Params :=
  ⟨some "l3out_1", none, none, some vrfTriple, none, none, none, none, none, none, none,
   .absent, .absent⟩

/-- Parameters supplying only `uuid` (the ospf parameter entirely absent). -/
def paramsUuidOnly : Params :=
  ⟨none, some "u1", none, none, none, none, none, none, none, none, none, .absent, .absent⟩

/-- Parameters supplying only a uuid that matches no entity. -/
def paramsMissing : Params :=
  ⟨none, some "missing", none, none, none, none, none, none, none, none, none, .absent,
   .absent⟩

/-- Parameters requesting `pim = true` together with a `vrf`. -/
def paramsPimVrf : Params :=
  ⟨some "l3out_1", none, none, some vrfTriple, none, none, some true, none, none, none,
   none, .absent, .absent⟩

/-- An entity storing `l3domain`, `targetDscp` and `pim` values. -/
def entityScalars : Dict :=
  [("uuid", .str "u9"), ("name", .str "n9"), ("l3domain", .str "d1"),
   ("targetDscp", .str "cs0"), ("pim", .bool true)]

/-- Parameters supplying `uuid`, a differing `l3_domain`, and `target_dscp`
and `pim` values equal to the stored ones. -/
def paramsScalars : Params :=
  ⟨none, some "u9", none, none, some "d2", some "cs0", some true, none, none, none, none,
   .absent, .absent⟩

theorem str_append_cancel_left {s a b : String} (h : s ++ a = s ++ b) : a = b := by
  cases s with | _ ls =>
  cases a with | _ la =>
  cases b with | _ lb =>
  have h2 : ls ++ la = ls ++ lb := congrArg String.data h
  have h3 := List.append_cancel_left h2
  simp [h3]

theorem str_append_ne (s : String) {a b : String} (h : a ≠ b) : s ++ a ≠ s ++ b :=
  fun hc => h (str_append_cancel_left hc)

theorem opsAt_append (l1 l2 : List Op) (s : String) :
    opsAt (l1 ++ l2) s = opsAt l1 s ++ opsAt l2 s := by
  simp [opsAt, List.filter_append]

theorem opsAt_eq_nil {l : List Op} {t : String} (h : ∀ o ∈ l, o.path ≠ t) :
    opsAt l t = [] := by
  induction l with
  | nil => rfl
  | cons o rest ih =>
    have h1 : ¬(o.path = t) := h o (List.mem_cons_self o rest)
    have h2 : ∀ o' ∈ rest, o'.path ≠ t := fun o' ho' => h o' (List.mem_cons_of_mem o ho')
    simp only [opsAt, List.filter] at ih ⊢
    simp [h1, ih h2]

/-- Every operation of a block whose paths are `ap`-prefixed suffixes of
`sufs` misses a path `ap ++ s` with `s ∉ sufs`. -/
theorem opsAt_eq_nil_of_sufs {l : List Op} {ap : String} {sufs : List String}
    (hmem : ∀ o ∈ l, o.path ∈ sufs.map (fun suf => ap ++ suf))
    {s : String} (hs : s ∉ sufs) : opsAt l (ap ++ s) = [] := by
  apply opsAt_eq_nil
  intro o ho hc
  obtain ⟨suf, hsuf, hpath⟩ := List.mem_map.mp (hmem o ho)
  have : suf = s := str_append_cancel_left (hpath.symm ▸ hc)
  exact hs (this ▸ hsuf)

theorem scalarFieldOps_opsAt_ne {α : Type} {param : Option α} {inj : α → Val} {curr : Val}
    (ap : String) {s1 s2 : String} (h : s1 ≠ s2) :
    opsAt (scalarFieldOps param inj curr (ap ++ s1)) (ap ++ s2) = [] := by
  apply opsAt_eq_nil
  intro o ho
  cases param with
  | none => simp [scalarFieldOps] at ho
  | some x =>
    simp only [scalarFieldOps] at ho
    split at ho <;> simp_all [str_append_ne ap h]

theorem scalarFieldOps_opsAt_self {α : Type} (param : Option α) (inj : α → Val) (curr : Val)
    (path : String) :
    opsAt (scalarFieldOps param inj curr path) path = scalarFieldOps param inj curr path := by
  cases param with
  | none => rfl
  | some x =>
    simp only [scalarFieldOps]
    split <;> simp [opsAt]

theorem rpFieldOps_opsAt_ne {rp : Option String} {curr : Val} (ap : String) {s1 s2 : String}
    (h : s1 ≠ s2) : opsAt (rpFieldOps rp curr (ap ++ s1)) (ap ++ s2) = [] := by
  apply opsAt_eq_nil
  intro o ho
  cases rp with
  | none => simp [rpFieldOps] at ho
  | some s =>
    simp only [rpFieldOps] at ho
    split at ho <;> simp_all [str_append_ne ap h]

theorem rpFieldOps_opsAt_self (rp : Option String) (curr : Val) (path : String) :
    opsAt (rpFieldOps rp curr path) path = rpFieldOps rp curr path := by
  cases rp with
  | none => rfl
  | some s =>
    simp only [rpFieldOps]
    split <;> simp [opsAt]

theorem guardOp_opsAt_ne {c : Prop} [Decidable c] {k : String} {v : Option Val} (ap : String)
    {s1 s2 : String} (h : s1 ≠ s2) :
    opsAt (if c then [Op.mk k (ap ++ s1) v] else []) (ap ++ s2) = [] := by
  split <;> simp [opsAt, str_append_ne ap h]

theorem guardOp_opsAt_self {c : Prop} [Decidable c] {k pth : String} {v : Option Val} :
    opsAt (if c then [Op.mk k pth v] else []) pth = if c then [Op.mk k pth v] else [] := by
  split <;> simp [opsAt]

theorem guardOp_mem {c : Prop} [Decidable c] {k pth : String} {v : Option Val} {op : Op}
    (h : op ∈ (if c then [Op.mk k pth v] else [])) : op.path = pth := by
  split at h <;> simp_all

theorem scalarFieldOps_mem {α : Type} {param : Option α} {inj : α → Val} {curr : Val}
    {path : String} {op : Op} (h : op ∈ scalarFieldOps param inj curr path) :
    op.path = path := by
  cases param with
  | none => simp [scalarFieldOps] at h
  | some x =>
    simp only [scalarFieldOps] at h
    split at h <;> simp_all

theorem childFieldOps_mem {α : Type} {param : Option α} {inj : α → Val} {curr : Val}
    {path : String} {op : Op} (h : op ∈ childFieldOps param inj curr path) :
    op.path = path := by
  cases param with
  | none => simp [childFieldOps] at h
  | some x =>
    simp only [childFieldOps] at h
    split at h <;> simp_all

theorem rpFieldOps_mem {rp : Option String} {curr : Val} {path : String} {op : Op}
    (h : op ∈ rpFieldOps rp curr path) : op.path = path := by
  cases rp with
  | none => simp [rpFieldOps] at h
  | some s =>
    simp only [rpFieldOps] at h
    split at h <;> simp_all

theorem routeMapFieldOps_paths {env : Env} {param : Option String} {curr : Val} {path : String}
    {l : List Op} (h : routeMapFieldOps env param curr path = .ok l) :
    ∀ o ∈ l, o.path = path := by
  intro o ho
  cases param with
  | none =>
    simp only [routeMapFieldOps] at h
    cases h
    simp at ho
  | some s =>
    simp only [routeMapFieldOps] at h
    split at h
    · cases h
    · cases h
      exact guardOp_mem ho

theorem routeMapFieldOps_opsAt_ne {env : Env} {param : Option String} {curr : Val}
    {l : List Op} (ap : String) {s1 s2 : String}
    (h : routeMapFieldOps env param curr (ap ++ s1) = .ok l) (hne : s1 ≠ s2) :
    opsAt l (ap ++ s2) = [] :=
  opsAt_eq_nil (fun o ho hc =>
    str_append_ne ap hne ((routeMapFieldOps_paths h o ho) ▸ hc))

theorem inboundRouteMapOps_paths {env : Env} {param : Option String} {curr : Val} {ap : String}
    {l : List Op} (h : inboundRouteMapOps env param curr ap = .ok l) :
    ∀ o ∈ l, o.path = ap ++ "/importRouteMapRef" ∨ o.path = ap ++ "/importRouteControl" := by
  intro o ho
  cases param with
  | none =>
    simp only [inboundRouteMapOps] at h
    cases h
    simp at ho
  | some s =>
    simp only [inboundRouteMapOps] at h
    split at h
    · cases h
    · cases h
      split at ho
      · simp only [List.mem_cons, List.not_mem_nil, or_false] at ho
        rcases ho with rfl | rfl <;> simp
      · simp at ho

theorem bgpUpdateOps_paths {env : Env} {bgp : Option BgpCfg} {existing : Dict} {ap : String}
    {l : List Op} (h : bgpUpdateOps env bgp existing ap = .ok l) :
    ∀ o ∈ l, o.path ∈ bgpSufs.map (fun suf => ap ++ suf) := by
  intro o ho
  cases bgp with
  | none =>
    simp only [bgpUpdateOps] at h
    cases h
    simp at ho
  | some b =>
    simp only [bgpUpdateOps] at h
    split at h
    · cases h
    next i hi =>
      split at h
      · cases h
      next e he =>
        split at h
        · cases h
        next d4 h4 =>
          split at h
          · cases h
          next d6 h6 =>
            cases h
            simp only [List.mem_append] at ho
            rcases ho with ((ho | ho) | ho) | ho
            · rcases inboundRouteMapOps_paths hi o ho with hp | hp <;> simp [hp, bgpSufs]
            · simp [routeMapFieldOps_paths he o ho, bgpSufs]
            · simp [routeMapFieldOps_paths h4 o ho, bgpSufs]
            · simp [routeMapFieldOps_paths h6 o ho, bgpSufs]

theorem defaultRouteLeakOps_paths (o : OspfCfg) (existing : Dict) (ap : String) :
    ∀ op ∈ defaultRouteLeakOps o existing ap,
      op.path = ap ++ "/defaultRouteLeak" ∨
      op.path = ap ++ "/defaultRouteLeak/originateDefaultRoute" ∨
      op.path = ap ++ "/defaultRouteLeak/always" := by
  intro op hop
  simp only [defaultRouteLeakOps] at hop
  split at hop
  · split at hop
    · simp only [List.mem_append] at hop
      rcases hop with (hop | hop) | hop
      · exact Or.inl (guardOp_mem hop)
      · exact Or.inr (Or.inl (guardOp_mem hop))
      · exact Or.inr (Or.inr (childFieldOps_mem hop))
    · split at hop <;> simp_all
  · simp at hop

theorem ospfAreaChildOps_paths (o : OspfCfg) (ex2 : Dict) (ap : String) :
    ∀ op ∈ ospfAreaChildOps o ex2 ap, op.path ∈ ospfSufs.map (fun suf => ap ++ suf) := by
  intro op hop
  simp only [ospfAreaChildOps, List.mem_append] at hop
  rcases hop with ((((((hop | hop) | hop) | hop) | hop) | hop) | hop)
  · have := guardOp_mem hop
    simp [this, ospfSufs]
  · have := guardOp_mem hop
    simp [this, ospfSufs]
  · have := guardOp_mem hop
    simp [this, ospfSufs]
  · have := guardOp_mem hop
    simp [this, ospfSufs]
  · have := childFieldOps_mem hop
    simp [this, ospfSufs]
  · have := childFieldOps_mem hop
    simp [this, ospfSufs]
  · have := childFieldOps_mem hop
    simp [this, ospfSufs]

theorem ospfUpdateOps_paths (o : OspfCfg) (existing : Dict) (ap : String) :
    ∀ op ∈ ospfUpdateOps o existing ap, op.path ∈ ospfSufs.map (fun suf => ap ++ suf) := by
  intro op hop
  simp only [ospfUpdateOps, List.mem_append] at hop
  rcases hop with (hop | hop) | hop
  · rcases defaultRouteLeakOps_paths o existing ap op hop with hp | hp | hp <;>
      simp [hp, ospfSufs]
  · have := guardOp_mem hop
    simp [this, ospfSufs]
  · exact ospfAreaChildOps_paths o _ ap op hop

theorem ospfChoiceOps_paths (ospf : Option OspfCfg) (existing : Dict) (ap : String) :
    ∀ op ∈ ospfChoiceOps ospf existing ap, op.path ∈ ospfSufs.map (fun suf => ap ++ suf) := by
  intro op hop
  cases ospf with
  | some o => exact ospfUpdateOps_paths o existing ap op hop
  | none =>
    simp only [ospfChoiceOps] at hop
    split at hop <;> simp_all [ospfSufs]

/-- Structural decomposition of a successful update branch: every route-map
sub-call succeeded, and the final list is the source-ordered concatenation
of the blocks. -/
theorem updateOps_ok {env : Env} {p : Params} {f : Found} {vr : Option String}
    {bgp : Option BgpCfg} {ospf : Option OspfCfg} {rp : Option String} {l : List Op}
    (h : updateOps env p f vr bgp ospf rp = .ok l) :
    ∃ o2 o3 o4 o5 o6,
      routeMapFieldOps env p.interleak
        (Val.get (dgetD f.details "advancedRouteMapRefs" (.obj [])) "interleakRef")
        (attrsPath f.index ++ "/advancedRouteMapRefs/interleakRef") = .ok o2 ∧
      routeMapFieldOps env p.static_route_redistribution
        (Val.get (dgetD f.details "advancedRouteMapRefs" (.obj [])) "staticRouteRedistRef")
        (attrsPath f.index ++ "/advancedRouteMapRefs/staticRouteRedistRef") = .ok o3 ∧
      routeMapFieldOps env p.connected_route_redistribution
        (Val.get (dgetD f.details "advancedRouteMapRefs" (.obj [])) "connectedRouteRedistRef")
        (attrsPath f.index ++ "/advancedRouteMapRefs/connectedRouteRedistRef") = .ok o4 ∧
      routeMapFieldOps env p.attached_host_route_redistribution
        (Val.get (dgetD f.details "advancedRouteMapRefs" (.obj [])) "attachedHostRouteRedistRef")
        (attrsPath f.index ++ "/advancedRouteMapRefs/attachedHostRouteRedistRef") = .ok o5 ∧
      bgpUpdateOps env bgp f.details (attrsPath f.index) = .ok o6 ∧
      l = updateScalarOps p f.details (attrsPath f.index) (nameVOf p f.details) vr rp
          ++ o2 ++ o3 ++ o4 ++ o5 ++ o6 ++ ospfChoiceOps ospf f.details (attrsPath f.index) := by
  simp only [updateOps] at h
  split at h
  · cases h
  next o2 h2 =>
    split at h
    · cases h
    next o3 h3 =>
      split at h
      · cases h
      next o4 h4 =>
        split at h
        · cases h
        next o5 h5 =>
          split at h
          · cases h
          next o6 h6 =>
            cases h
            exact ⟨o2, o3, o4, o5, o6, h2, h3, h4, h5, h6, by simp⟩

/-- A successful present run with a located entity went through `vrfResolve`
and the update branch. -/
theorem presentRun_update {env : Env} {p : Params} {l3outs : List Dict} {f : Found}
    {ops : List Op} (hloc : locate p l3outs = some f)
    (h : presentRun env p l3outs = .ok ops) :
    ∃ vr, vrfResolve env p = .ok vr ∧
      updateOps env p f vr p.bgp.collapse p.ospf.collapse
        (routingProtocols true p.bgp.collapse p.ospf.collapse) = .ok ops := by
  simp only [presentRun, hloc] at h
  rw [if_neg (by simp)] at h
  split at h
  · cases h
  next vr hvr =>
    exact ⟨vr, hvr, h⟩

theorem runPresent_ok {env : Env} {p : Params} {l3outs : List Dict} {ck : Bool}
    {ops : List Op} {req : Option (List Op)}
    (h : runPresent env p l3outs ck = .ok (ops, req)) :
    presentRun env p l3outs = .ok ops ∧ req = submit ck ops := by
  simp only [runPresent] at h
  split at h
  · cases h
  next ops2 h2 =>
    cases h
    exact ⟨h2, rfl⟩

theorem paths_ne_of_sufs {l : List Op} {ap : String} {sufs : List String}
    (hmem : ∀ o ∈ l, o.path ∈ sufs.map (fun suf => ap ++ suf))
    {other : List String} (hdisj : ∀ s ∈ other, s ∉ sufs) :
    ∀ o ∈ l, ∀ suf ∈ other, o.path ≠ ap ++ suf := by
  intro o ho suf hsuf hc
  obtain ⟨s2, hs2, hp⟩ := List.mem_map.mp (hmem o ho)
  have : s2 = suf := str_append_cancel_left (hp.symm ▸ hc)
  exact hdisj suf hsuf (this ▸ hs2)

theorem defaultRouteLeakOps_sufs (o : OspfCfg) (existing : Dict) (ap : String) :
    ∀ op ∈ defaultRouteLeakOps o existing ap,
      op.path ∈ (["/defaultRouteLeak", "/defaultRouteLeak/originateDefaultRoute",
        "/defaultRouteLeak/always"] : List String).map (fun suf => ap ++ suf) := by
  intro op hop
  rcases defaultRouteLeakOps_paths o existing ap op hop with hp | hp | hp <;> simp [hp]

theorem routeMapFieldOps_sufs {env : Env} {param : Option String} {curr : Val}
    (ap suf : String) {l : List Op}
    (h : routeMapFieldOps env param curr (ap ++ suf) = .ok l) :
    ∀ o ∈ l, o.path ∈ ([suf] : List String).map (fun s => ap ++ s) := by
  intro o ho
  simp [routeMapFieldOps_paths h o ho]

theorem updateScalarOps_sufs (p : Params) (existing : Dict) (ap : String) (nameV : Val)
    (vr : Option String) (rp : Option String) :
    ∀ o ∈ updateScalarOps p existing ap nameV vr rp,
      o.path ∈ scalarSufs.map (fun suf => ap ++ suf) := by
  intro o ho
  simp only [updateScalarOps, List.mem_append] at ho
  rcases ho with (((((((ho | ho) | ho) | ho) | ho) | ho) | ho) | ho)
  · simp [guardOp_mem ho, scalarSufs]
  · simp [scalarFieldOps_mem ho, scalarSufs]
  · simp [scalarFieldOps_mem ho, scalarSufs]
  · simp [scalarFieldOps_mem ho, scalarSufs]
  · simp [scalarFieldOps_mem ho, scalarSufs]
  · simp [scalarFieldOps_mem ho, scalarSufs]
  · simp [rpFieldOps_mem ho, scalarSufs]
  · simp [guardOp_mem ho, scalarSufs]

theorem updateScalarOps_opsAt_rp (p : Params) (existing : Dict) (ap : String) (nameV : Val)
    (vr : Option String) (rp : Option String) :
    opsAt (updateScalarOps p existing ap nameV vr rp) (ap ++ "/routingProtocol") =
      rpFieldOps rp (dget existing "routingProtocol") (ap ++ "/routingProtocol") := by
  simp only [updateScalarOps, opsAt_append]
  rw [guardOp_opsAt_ne ap (by decide : ("/name" : String) ≠ "/routingProtocol"),
      scalarFieldOps_opsAt_ne ap (by decide : ("/vrfRef" : String) ≠ "/routingProtocol"),
      scalarFieldOps_opsAt_ne ap (by decide : ("/description" : String) ≠ "/routingProtocol"),
      scalarFieldOps_opsAt_ne ap (by decide : ("/l3domain" : String) ≠ "/routingProtocol"),
      scalarFieldOps_opsAt_ne ap (by decide : ("/targetDscp" : String) ≠ "/routingProtocol"),
      scalarFieldOps_opsAt_ne ap (by decide : ("/pim" : String) ≠ "/routingProtocol"),
      rpFieldOps_opsAt_self,
      guardOp_opsAt_ne ap
        (by decide : ("/advancedRouteMapRefs" : String) ≠ "/routingProtocol")]
  simp

theorem updateScalarOps_opsAt_description (p : Params) (existing : Dict) (ap : String)
    (nameV : Val) (vr : Option String) (rp : Option String) :
    opsAt (updateScalarOps p existing ap nameV vr rp) (ap ++ "/description") =
      scalarFieldOps p.description Val.str (dget existing "description")
        (ap ++ "/description") := by
  simp only [updateScalarOps, opsAt_append]
  rw [guardOp_opsAt_ne ap (by decide : ("/name" : String) ≠ "/description"),
      scalarFieldOps_opsAt_ne ap (by decide : ("/vrfRef" : String) ≠ "/description"),
      scalarFieldOps_opsAt_self,
      scalarFieldOps_opsAt_ne ap (by decide : ("/l3domain" : String) ≠ "/description"),
      scalarFieldOps_opsAt_ne ap (by decide : ("/targetDscp" : String) ≠ "/description"),
      scalarFieldOps_opsAt_ne ap (by decide : ("/pim" : String) ≠ "/description"),
      rpFieldOps_opsAt_ne ap (by decide : ("/routingProtocol" : String) ≠ "/description"),
      guardOp_opsAt_ne ap (by decide : ("/advancedRouteMapRefs" : String) ≠ "/description")]
  simp

theorem updateScalarOps_opsAt_l3domain (p : Params) (existing : Dict) (ap : String)
    (nameV : Val) (vr : Option String) (rp : Option String) :
    opsAt (updateScalarOps p existing ap nameV vr rp) (ap ++ "/l3domain") =
      scalarFieldOps p.l3_domain Val.str (dget existing "l3domain") (ap ++ "/l3domain") := by
  simp only [updateScalarOps, opsAt_append]
  rw [guardOp_opsAt_ne ap (by decide : ("/name" : String) ≠ "/l3domain"),
      scalarFieldOps_opsAt_ne ap (by decide : ("/vrfRef" : String) ≠ "/l3domain"),
      scalarFieldOps_opsAt_ne ap (by decide : ("/description" : String) ≠ "/l3domain"),
      scalarFieldOps_opsAt_self,
      scalarFieldOps_opsAt_ne ap (by decide : ("/targetDscp" : String) ≠ "/l3domain"),
      scalarFieldOps_opsAt_ne ap (by decide : ("/pim" : String) ≠ "/l3domain"),
      rpFieldOps_opsAt_ne ap (by decide : ("/routingProtocol" : String) ≠ "/l3domain"),
      guardOp_opsAt_ne ap (by decide : ("/advancedRouteMapRefs" : String) ≠ "/l3domain")]
  simp

theorem updateScalarOps_opsAt_targetDscp (p : Params) (existing : Dict) (ap : String)
    (nameV : Val) (vr : Option String) (rp : Option String) :
    opsAt (updateScalarOps p existing ap nameV vr rp) (ap ++ "/targetDscp") =
      scalarFieldOps p.target_dscp Val.str (dget existing "targetDscp")
        (ap ++ "/targetDscp") := by
  simp only [updateScalarOps, opsAt_append]
  rw [guardOp_opsAt_ne ap (by decide : ("/name" : String) ≠ "/targetDscp"),
      scalarFieldOps_opsAt_ne ap (by decide : ("/vrfRef" : String) ≠ "/targetDscp"),
      scalarFieldOps_opsAt_ne ap (by decide : ("/description" : String) ≠ "/targetDscp"),
      scalarFieldOps_opsAt_ne ap (by decide : ("/l3domain" : String) ≠ "/targetDscp"),
      scalarFieldOps_opsAt_self,
      scalarFieldOps_opsAt_ne ap (by decide : ("/pim" : String) ≠ "/targetDscp"),
      rpFieldOps_opsAt_ne ap (by decide : ("/routingProtocol" : String) ≠ "/targetDscp"),
      guardOp_opsAt_ne ap (by decide : ("/advancedRouteMapRefs" : String) ≠ "/targetDscp")]
  simp

theorem updateScalarOps_opsAt_pim (p : Params) (existing : Dict) (ap : String)
    (nameV : Val) (vr : Option String) (rp : Option String) :
    opsAt (updateScalarOps p existing ap nameV vr rp) (ap ++ "/pim") =
      scalarFieldOps p.pim Val.bool (dget existing "pim") (ap ++ "/pim") := by
  simp only [updateScalarOps, opsAt_append]
  rw [guardOp_opsAt_ne ap (by decide : ("/name" : String) ≠ "/pim"),
      scalarFieldOps_opsAt_ne ap (by decide : ("/vrfRef" : String) ≠ "/pim"),
      scalarFieldOps_opsAt_ne ap (by decide : ("/description" : String) ≠ "/pim"),
      scalarFieldOps_opsAt_ne ap (by decide : ("/l3domain" : String) ≠ "/pim"),
      scalarFieldOps_opsAt_ne ap (by decide : ("/targetDscp" : String) ≠ "/pim"),
      scalarFieldOps_opsAt_self,
      rpFieldOps_opsAt_ne ap (by decide : ("/routingProtocol" : String) ≠ "/pim"),
      guardOp_opsAt_ne ap (by decide : ("/advancedRouteMapRefs" : String) ≠ "/pim")]
  simp

/-- In a successful update run, the operations at an entity sub-path that no
route-map, bgp or ospf block can address are exactly the scalar block's. -/
theorem update_opsAt_frame {env : Env} {p : Params} {l3outs : List Dict} {f : Found}
    {ops : List Op} (hloc : locate p l3outs = some f)
    (hpres : presentRun env p l3outs = .ok ops) (s : String)
    (h1 : s ≠ "/advancedRouteMapRefs/interleakRef")
    (h2 : s ≠ "/advancedRouteMapRefs/staticRouteRedistRef")
    (h3 : s ≠ "/advancedRouteMapRefs/connectedRouteRedistRef")
    (h4 : s ≠ "/advancedRouteMapRefs/attachedHostRouteRedistRef")
    (h5 : s ∉ bgpSufs) (h6 : s ∉ ospfSufs) :
    ∃ vr, vrfResolve env p = .ok vr ∧
      opsAt ops (attrsPath f.index ++ s) =
        opsAt (updateScalarOps p f.details (attrsPath f.index) (nameVOf p f.details) vr
          (routingProtocols true p.bgp.collapse p.ospf.collapse)) (attrsPath f.index ++ s) := by
  obtain ⟨vr, hvr, hupd⟩ := presentRun_update hloc hpres
  obtain ⟨o2, o3, o4, o5, o6, k2, k3, k4, k5, k6, rfl⟩ := updateOps_ok hupd
  refine ⟨vr, hvr, ?_⟩
  simp only [opsAt_append]
  rw [routeMapFieldOps_opsAt_ne _ k2 (Ne.symm h1),
      routeMapFieldOps_opsAt_ne _ k3 (Ne.symm h2),
      routeMapFieldOps_opsAt_ne _ k4 (Ne.symm h3),
      routeMapFieldOps_opsAt_ne _ k5 (Ne.symm h4),
      opsAt_eq_nil_of_sufs (bgpUpdateOps_paths k6) h5,
      opsAt_eq_nil_of_sufs (ospfChoiceOps_paths _ _ _) h6]
  simp

/-- Claim C2: in update mode, when neither the bgp nor the ospf driving
sub-section is supplied this run (both collapse to the falsy empty dict at
line 421-422), no operation addressed at the derived `routingProtocol` path
is emitted, even when the stored value differs from what would be derived;
when at least one sub-section is supplied, the recomputed value (always one
of the non-empty `bgp`/`ospf`/`bgpOspf`) is written exactly when it is
non-empty and differs from the stored value (lines 489-499 and 664-666). -/
theorem claim_C2_routing_protocol_update {env : Env} {p : Params} {l3outs : List Dict}
    {ck : Bool} {f : Found} {ops : List Op} {req : Option (List Op)}
    (hloc : locate p l3outs = some f)
    (hrun : runPresent env p l3outs ck = .ok (ops, req)) :
    (p.bgp.collapse = none ∧ p.ospf.collapse = none →
      opsAt ops (attrsPath f.index ++ "/routingProtocol") = []) ∧
    (∀ s, routingProtocols true p.bgp.collapse p.ospf.collapse = some s →
      opsAt ops (attrsPath f.index ++ "/routingProtocol") =
        (if s ≠ "" ∧ dget f.details "routingProtocol" ≠ .str s then
          [⟨"replace", attrsPath f.index ++ "/routingProtocol", some (.str s)⟩]
        else [])) := by
  obtain ⟨hpres, -⟩ := runPresent_ok hrun
  obtain ⟨vr, hvr, hframe⟩ := update_opsAt_frame hloc hpres "/routingProtocol"
    (by decide) (by decide) (by decide) (by decide) (by decide) (by decide)
  rw [updateScalarOps_opsAt_rp] at hframe
  constructor
  · rintro ⟨hb, ho⟩
    rw [hframe, hb, ho]
    rfl
  · intro s hs
    rw [hframe, hs]
    rfl

/-- Witness for C2: updating with only a truthy `bgp` dict on an entity
whose stored protocol is `ospf` emits exactly the derived-protocol write. -/
theorem claim_C2_witness :
    runPresent envNil paramsBgpOnly [entityRp] false =
      .ok ([⟨"replace", attrsPath 0 ++ "/routingProtocol", some (.str "bgp")⟩],
           some [⟨"replace", attrsPath 0 ++ "/routingProtocol", some (.str "bgp")⟩]) ∧
    opsAt [⟨"replace", attrsPath 0 ++ "/routingProtocol", some (.str "bgp")⟩]
        (attrsPath 0 ++ "/routingProtocol") =
      [⟨"replace", attrsPath 0 ++ "/routingProtocol", some (.str "bgp")⟩] := by
  have hloc : locate paramsBgpOnly [entityRp] = some ⟨0, entityRp⟩ := by rfl
  have hrun : runPresent envNil paramsBgpOnly [entityRp] false =
      .ok ([⟨"replace", attrsPath 0 ++ "/routingProtocol", some (.str "bgp")⟩],
           some [⟨"replace", attrsPath 0 ++ "/routingProtocol", some (.str "bgp")⟩]) := by rfl
  refine ⟨hrun, ?_⟩
  have h2 := (claim_C2_routing_protocol_update hloc hrun).2 "bgp" (by rfl)
  exact h2.trans (by rfl)

/-- Claim C5: in update mode, every optional scalar field (`description`,
`l3domain`, `targetDscp`, `pim`) follows the three-state contract of lines
648-662: given no value it produces no operation at that field's path; a
value equal to the stored one produces no operation; a differing value
produces exactly one replace at that field's path carrying the new value. -/
theorem claim_C5_scalar_field_update {env : Env} {p : Params} {l3outs : List Dict}
    {ck : Bool} {f : Found} {ops : List Op} {req : Option (List Op)}
    (hloc : locate p l3outs = some f)
    (hrun : runPresent env p l3outs ck = .ok (ops, req)) :
    ((p.description = none → opsAt ops (attrsPath f.index ++ "/description") = []) ∧
     (∀ d, p.description = some d → dget f.details "description" = .str d →
       opsAt ops (attrsPath f.index ++ "/description") = []) ∧
     (∀ d, p.description = some d → dget f.details "description" ≠ .str d →
       opsAt ops (attrsPath f.index ++ "/description") =
         [⟨"replace", attrsPath f.index ++ "/description", some (.str d)⟩])) ∧
    ((p.l3_domain = none → opsAt ops (attrsPath f.index ++ "/l3domain") = []) ∧
     (∀ d, p.l3_domain = some d → dget f.details "l3domain" = .str d →
       opsAt ops (attrsPath f.index ++ "/l3domain") = []) ∧
     (∀ d, p.l3_domain = some d → dget f.details "l3domain" ≠ .str d →
       opsAt ops (attrsPath f.index ++ "/l3domain") =
         [⟨"replace", attrsPath f.index ++ "/l3domain", some (.str d)⟩])) ∧
    ((p.target_dscp = none → opsAt ops (attrsPath f.index ++ "/targetDscp") = []) ∧
     (∀ d, p.target_dscp = some d → dget f.details "targetDscp" = .str d →
       opsAt ops (attrsPath f.index ++ "/targetDscp") = []) ∧
     (∀ d, p.target_dscp = some d → dget f.details "targetDscp" ≠ .str d →
       opsAt ops (attrsPath f.index ++ "/targetDscp") =
         [⟨"replace", attrsPath f.index ++ "/targetDscp", some (.str d)⟩])) ∧
    ((p.pim = none → opsAt ops (attrsPath f.index ++ "/pim") = []) ∧
     (∀ b, p.pim = some b → dget f.details "pim" = .bool b →
       opsAt ops (attrsPath f.index ++ "/pim") = []) ∧
     (∀ b, p.pim = some b → dget f.details "pim" ≠ .bool b →
       opsAt ops (attrsPath f.index ++ "/pim") =
         [⟨"replace", attrsPath f.index ++ "/pim", some (.bool b)⟩])) := by
  obtain ⟨hpres, -⟩ := runPresent_ok hrun
  obtain ⟨vr1, hvr1, hdesc⟩ := update_opsAt_frame hloc hpres "/description"
    (by decide) (by decide) (by decide) (by decide) (by decide) (by decide)
  rw [updateScalarOps_opsAt_description] at hdesc
  obtain ⟨vr2, hvr2, hdom⟩ := update_opsAt_frame hloc hpres "/l3domain"
    (by decide) (by decide) (by decide) (by decide) (by decide) (by decide)
  rw [updateScalarOps_opsAt_l3domain] at hdom
  obtain ⟨vr3, hvr3, hdscp⟩ := update_opsAt_frame hloc hpres "/targetDscp"
    (by decide) (by decide) (by decide) (by decide) (by decide) (by decide)
  rw [updateScalarOps_opsAt_targetDscp] at hdscp
  obtain ⟨vr4, hvr4, hpim⟩ := update_opsAt_frame hloc hpres "/pim"
    (by decide) (by decide) (by decide) (by decide) (by decide) (by decide)
  rw [updateScalarOps_opsAt_pim] at hpim
  refine ⟨⟨?_, ?_, ?_⟩, ⟨?_, ?_, ?_⟩, ⟨?_, ?_, ?_⟩, ⟨?_, ?_, ?_⟩⟩
  · intro h0
    rw [hdesc, h0]
    rfl
  · intro d h0 he
    rw [hdesc, h0]
    simp [scalarFieldOps, he]
  · intro d h0 he
    rw [hdesc, h0]
    simp [scalarFieldOps, he]
  · intro h0
    rw [hdom, h0]
    rfl
  · intro d h0 he
    rw [hdom, h0]
    simp [scalarFieldOps, he]
  · intro d h0 he
    rw [hdom, h0]
    simp [scalarFieldOps, he]
  · intro h0
    rw [hdscp, h0]
    rfl
  · intro d h0 he
    rw [hdscp, h0]
    simp [scalarFieldOps, he]
  · intro d h0 he
    rw [hdscp, h0]
    simp [scalarFieldOps, he]
  · intro h0
    rw [hpim, h0]
    rfl
  · intro b h0 he
    rw [hpim, h0]
    simp [scalarFieldOps, he]
  · intro b h0 he
    rw [hpim, h0]
    simp [scalarFieldOps, he]

/-- Witness for C5: the spec scenario — updating only `description` from
`a` to `b` on the entity at position 2 produces exactly the one replace —
together with a run exercising the other scalars: a differing `l3domain`
yields its one replace while equal `targetDscp` and `pim` values yield no
operation at their paths. -/
theorem claim_C5_witness :
    (runPresent envNil paramsDesc [entityD0, entityD1, entityD2] false =
      .ok ([⟨"replace", attrsPath 2 ++ "/description", some (.str "b")⟩],
           some [⟨"replace", attrsPath 2 ++ "/description", some (.str "b")⟩]) ∧
     opsAt [⟨"replace", attrsPath 2 ++ "/description", some (.str "b")⟩]
        (attrsPath 2 ++ "/description") =
      [⟨"replace", attrsPath 2 ++ "/description", some (.str "b")⟩]) ∧
    (runPresent envNil paramsScalars [entityScalars] false =
      .ok ([⟨"replace", attrsPath 0 ++ "/l3domain", some (.str "d2")⟩],
           some [⟨"replace", attrsPath 0 ++ "/l3domain", some (.str "d2")⟩]) ∧
     opsAt [⟨"replace", attrsPath 0 ++ "/l3domain", some (.str "d2")⟩]
        (attrsPath 0 ++ "/l3domain") =
      [⟨"replace", attrsPath 0 ++ "/l3domain", some (.str "d2")⟩] ∧
     opsAt [⟨"replace", attrsPath 0 ++ "/l3domain", some (.str "d2")⟩]
        (attrsPath 0 ++ "/targetDscp") = [] ∧
     opsAt [⟨"replace", attrsPath 0 ++ "/l3domain", some (.str "d2")⟩]
        (attrsPath 0 ++ "/pim") = []) := by
  have hloc : locate paramsDesc [entityD0, entityD1, entityD2] = some ⟨2, entityD2⟩ := by rfl
  have hrun : runPresent envNil paramsDesc [entityD0, entityD1, entityD2] false =
      .ok ([⟨"replace", attrsPath 2 ++ "/description", some (.str "b")⟩],
           some [⟨"replace", attrsPath 2 ++ "/description", some (.str "b")⟩]) := by rfl
  have hloc2 : locate paramsScalars [entityScalars] = some ⟨0, entityScalars⟩ := by rfl
  have hrun2 : runPresent envNil paramsScalars [entityScalars] false =
      .ok ([⟨"replace", attrsPath 0 ++ "/l3domain", some (.str "d2")⟩],
           some [⟨"replace", attrsPath 0 ++ "/l3domain", some (.str "d2")⟩]) := by rfl
  have h1 := claim_C5_scalar_field_update hloc hrun
  have h2 := claim_C5_scalar_field_update hloc2 hrun2
  exact ⟨⟨hrun, h1.1.2.2 "b" rfl (by decide)⟩,
    hrun2, h2.2.1.2.2 "d2" rfl (by decide),
    h2.2.2.1.2.1 "cs0" rfl (by decide), h2.2.2.2.2.1 true rfl (by decide)⟩

theorem vrfResolve_none {env : Env} {p : Params} (h : p.vrf = none) :
    vrfResolve env p = .ok none := by
  simp [vrfResolve, h]

theorem get_route_map_routeMaps {env1 env2 : Env} (h : env1.routeMaps = env2.routeMaps)
    (s : String) : get_route_map env1 s = get_route_map env2 s := by
  simp [get_route_map, h]

theorem routeMapFieldOps_routeMaps {env1 env2 : Env} (h : env1.routeMaps = env2.routeMaps)
    (param : Option String) (curr : Val) (path : String) :
    routeMapFieldOps env1 param curr path = routeMapFieldOps env2 param curr path := by
  cases param with
  | none => rfl
  | some s => simp [routeMapFieldOps, get_route_map_routeMaps h]

theorem inboundRouteMapOps_routeMaps {env1 env2 : Env} (h : env1.routeMaps = env2.routeMaps)
    (param : Option String) (curr : Val) (ap : String) :
    inboundRouteMapOps env1 param curr ap = inboundRouteMapOps env2 param curr ap := by
  cases param with
  | none => rfl
  | some s => simp [inboundRouteMapOps, get_route_map_routeMaps h]

theorem bgpUpdateOps_routeMaps {env1 env2 : Env} (h : env1.routeMaps = env2.routeMaps)
    (bgp : Option BgpCfg) (existing : Dict) (ap : String) :
    bgpUpdateOps env1 bgp existing ap = bgpUpdateOps env2 bgp existing ap := by
  cases bgp with
  | none => rfl
  | some b =>
    simp only [bgpUpdateOps, inboundRouteMapOps_routeMaps h, routeMapFieldOps_routeMaps h]

theorem updateOps_routeMaps {env1 env2 : Env} (h : env1.routeMaps = env2.routeMaps)
    (p : Params) (f : Found) (vr : Option String) (bgp : Option BgpCfg)
    (ospf : Option OspfCfg) (rp : Option String) :
    updateOps env1 p f vr bgp ospf rp = updateOps env2 p f vr bgp ospf rp := by
  simp only [updateOps, routeMapFieldOps_routeMaps h, bgpUpdateOps_routeMaps h]

theorem addRouteMapRef_routeMaps {env1 env2 : Env} (h : env1.routeMaps = env2.routeMaps)
    (param : Option String) (key : String) (d : Dict) :
    addRouteMapRef env1 param key d = addRouteMapRef env2 param key d := by
  simp only [addRouteMapRef, get_route_map_routeMaps h]

theorem addDampeningRef_routeMaps {env1 env2 : Env} (h : env1.routeMaps = env2.routeMaps)
    (param : Option String) (key : String) (d : Dict) :
    addDampeningRef env1 param key d = addDampeningRef env2 param key d := by
  simp only [addDampeningRef, get_route_map_routeMaps h]

theorem createOuterRouteMaps_routeMaps {env1 env2 : Env}
    (h : env1.routeMaps = env2.routeMaps) (p : Params) :
    createOuterRouteMaps env1 p = createOuterRouteMaps env2 p := by
  simp only [createOuterRouteMaps, addRouteMapRef_routeMaps h]

theorem createBgpPart_routeMaps {env1 env2 : Env} (h : env1.routeMaps = env2.routeMaps)
    (b : BgpCfg) (payload : Dict) :
    createBgpPart env1 b payload = createBgpPart env2 b payload := by
  simp only [createBgpPart, addRouteMapRef_routeMaps h, addDampeningRef_routeMaps h]

theorem createBgpPartOpt_routeMaps {env1 env2 : Env} (h : env1.routeMaps = env2.routeMaps)
    (bgp : Option BgpCfg) (payload : Dict) :
    createBgpPartOpt env1 bgp payload = createBgpPartOpt env2 bgp payload := by
  cases bgp with
  | none => rfl
  | some b => simp only [createBgpPartOpt, createBgpPart_routeMaps h]

theorem createPayload_routeMaps {env1 env2 : Env} (h : env1.routeMaps = env2.routeMaps)
    (p : Params) (name : String) (vr : Option String) (bgp : Option BgpCfg)
    (ospf : Option OspfCfg) (rp : Option String) :
    createPayload env1 p name vr bgp ospf rp = createPayload env2 p name vr bgp ospf rp := by
  simp only [createPayload, createOuterRouteMaps_routeMaps h, createBgpPartOpt_routeMaps h]

/-- With the `vrf` parameter absent, the whole present-state run reads only
the route-map collection: the VRF collection is never consulted. -/
theorem presentRun_vrf_absent_env {env1 env2 : Env} {p : Params} {l3outs : List Dict}
    (hrm : env1.routeMaps = env2.routeMaps) (hvrf : p.vrf = none) :
    presentRun env1 p l3outs = presentRun env2 p l3outs := by
  simp only [presentRun, vrfResolve_none hvrf, updateOps_routeMaps hrm,
    createPayload_routeMaps hrm]

/-- Claim C10 (implicit): the pim/multicast validation runs only when the
`vrf` parameter is supplied in the same run (the check at lines 481-486 sits
inside `if vrf_dict:`); an update that sets `pim = true` without supplying
`vrf` never consults the VRF collection (the run's outcome is the same for
every VRF collection) and emits the `pim` replace exactly when the stored
value differs (lines 660-662). -/
theorem claim_C10_pim_without_vrf {env : Env} {p : Params} {l3outs : List Dict}
    {ck : Bool} {f : Found} {ops : List Op} {req : Option (List Op)}
    (hloc : locate p l3outs = some f)
    (hvrf : p.vrf = none)
    (hpim : p.pim = some true)
    (hrun : runPresent env p l3outs ck = .ok (ops, req)) :
    (∀ env2 : Env, env2.routeMaps = env.routeMaps →
      runPresent env2 p l3outs ck = .ok (ops, req)) ∧
    opsAt ops (attrsPath f.index ++ "/pim") =
      (if dget f.details "pim" ≠ .bool true then
        [⟨"replace", attrsPath f.index ++ "/pim", some (.bool true)⟩]
      else []) := by
  obtain ⟨hpres, -⟩ := runPresent_ok hrun
  constructor
  · intro env2 hrm
    have heq : presentRun env2 p l3outs = presentRun env p l3outs :=
      presentRun_vrf_absent_env hrm hvrf
    unfold runPresent at hrun ⊢
    rw [heq]
    exact hrun
  · obtain ⟨vr, hvr, hframe⟩ := update_opsAt_frame hloc hpres "/pim"
      (by decide) (by decide) (by decide) (by decide) (by decide) (by decide)
    rw [updateScalarOps_opsAt_pim, hpim] at hframe
    rw [hframe]
    rfl

/-- Witness for C10: updating with `pim = true`, `uuid` and no `vrf` on an
entity without a stored flag succeeds with exactly the pim replace, and the
identical outcome holds in an environment whose only VRF has multicast
disabled — no validation failure occurs. -/
theorem claim_C10_witness :
    runPresent envNil paramsPimNoVrf [entityPim] false =
      .ok ([⟨"replace", attrsPath 0 ++ "/pim", some (.bool true)⟩],
           some [⟨"replace", attrsPath 0 ++ "/pim", some (.bool true)⟩]) ∧
    runPresent envMcastOff paramsPimNoVrf [entityPim] false =
      .ok ([⟨"replace", attrsPath 0 ++ "/pim", some (.bool true)⟩],
           some [⟨"replace", attrsPath 0 ++ "/pim", some (.bool true)⟩]) ∧
    opsAt [⟨"replace", attrsPath 0 ++ "/pim", some (.bool true)⟩] (attrsPath 0 ++ "/pim") =
      [⟨"replace", attrsPath 0 ++ "/pim", some (.bool true)⟩] := by
  have hloc : locate paramsPimNoVrf [entityPim] = some ⟨0, entityPim⟩ := by rfl
  have hrun : runPresent envNil paramsPimNoVrf [entityPim] false =
      .ok ([⟨"replace", attrsPath 0 ++ "/pim", some (.bool true)⟩],
           some [⟨"replace", attrsPath 0 ++ "/pim", some (.bool true)⟩]) := by rfl
  have h := claim_C10_pim_without_vrf hloc rfl rfl hrun
  exact ⟨hrun, h.1 envMcastOff rfl, h.2.trans (by decide)⟩

theorem dget_ddel_ne {d : Dict} {k k2 : String} (h : k2 ≠ k) :
    dget (ddel d k) k2 = dget d k2 := by
  induction d with
  | nil => rfl
  | cons kv rest ih =>
    obtain ⟨a, b⟩ := kv
    by_cases hak : a = k
    · have h2 : ddel ((a, b) :: rest) k = ddel rest k := by
        simp [ddel, List.filter, hak]
      rw [h2, ih]
      subst hak
      have h3 : (k2 == a) = false := by
        simp
        intro hc
        exact h hc
      simp [dget, List.lookup, h3]
    · have h2 : ddel ((a, b) :: rest) k = (a, b) :: ddel rest k := by
        simp [ddel, List.filter, hak]
      rw [h2]
      by_cases hk2 : a = k2
      · simp [dget, List.lookup, hk2]
      · have h3 : (k2 == a) = false := by
          simp
          intro hc
          exact hk2 hc.symm
        simp only [dget, List.lookup, h3]
        exact ih

theorem dget_defaultRouteLeakExisting (o : OspfCfg) (existing : Dict) {k : String}
    (h : k ≠ "defaultRouteLeak") :
    dget (defaultRouteLeakExisting o existing) k = dget existing k := by
  unfold defaultRouteLeakExisting
  split
  · exact dget_ddel_ne h
  · rfl

/-- When the working copy has no truthy `ospfAreaConfig`, the ospf update
block starts with the `defaultRouteLeak` operations, immediately followed by
the container-creation operation. -/
theorem ospfUpdateOps_container {o : OspfCfg} {existing : Dict} {ap : String}
    (hnone : (dget (defaultRouteLeakExisting o existing) "ospfAreaConfig").truthy = false) :
    ospfUpdateOps o existing ap =
      defaultRouteLeakOps o existing ap ++
        ⟨"replace", ap ++ "/ospfAreaConfig", some (.obj [])⟩ ::
          ospfAreaChildOps o (defaultRouteLeakExisting o existing) ap := by
  simp only [ospfUpdateOps]
  rw [if_pos (by simp [hnone])]
  simp

/-- Claim C4: in update mode with nothing else supplied, `ospf = {}` against
an entity whose `ospfAreaConfig` does not exist (is not truthy) yields an
empty operation list, and against an entity whose `ospfAreaConfig` exists
yields exactly one remove at that sub-structure's path (lines 877-880). -/
theorem claim_C4_ospf_empty_update (env : Env) {p : Params} {l3outs : List Dict} {f : Found}
    (hloc : locate p l3outs = some f)
    (hospf : p.ospf = .empty) (hbgp : p.bgp = .absent)
    (hname : p.name = none) (hvrf : p.vrf = none) (hdesc : p.description = none)
    (hdom : p.l3_domain = none) (hdscp : p.target_dscp = none) (hpim : p.pim = none)
    (hint : p.interleak = none) (hstat : p.static_route_redistribution = none)
    (hconn : p.connected_route_redistribution = none)
    (hatt : p.attached_host_route_redistribution = none) :
    presentRun env p l3outs =
      .ok (if (dget f.details "ospfAreaConfig").truthy then
        [⟨"remove", attrsPath f.index ++ "/ospfAreaConfig", none⟩]
      else []) := by
  simp only [presentRun, hloc, hospf, hbgp, SubIn.collapse, vrfResolve_none hvrf]
  rw [if_neg (by simp)]
  simp only [updateOps, hint, hstat, hconn, hatt, routeMapFieldOps, bgpUpdateOps,
    updateScalarOps, nameVOf, hname, hdesc, hdom, hdscp, hpim, scalarFieldOps, rpFieldOps,
    strOptTruthy, routingProtocols, ospfChoiceOps]
  simp

/-- Witness for C4: the spec scenario at position 0 — `ospf = {}` removes an
existing `ospfAreaConfig` with exactly one operation, and is a no-op when
none exists. -/
theorem claim_C4_witness :
    presentRun envNil paramsOspfEmpty [entityOspf] =
      .ok [⟨"remove", attrsPath 0 ++ "/ospfAreaConfig", none⟩] ∧
    presentRun envNil paramsOspfEmpty [entityPim] = .ok [] := by
  have hloc1 : locate paramsOspfEmpty [entityOspf] = some ⟨0, entityOspf⟩ := by rfl
  have hloc2 : locate paramsOspfEmpty [entityPim] = some ⟨0, entityPim⟩ := by rfl
  have h1 := claim_C4_ospf_empty_update envNil hloc1 rfl rfl rfl rfl rfl rfl rfl rfl rfl rfl
    rfl rfl
  have h2 := claim_C4_ospf_empty_update envNil hloc2 rfl rfl rfl rfl rfl rfl rfl rfl rfl rfl
    rfl rfl
  exact ⟨h1.trans (by rfl), h2.trans (by rfl)⟩

/-- Claim C3: in update mode, supplying an `ospf` sub-structure with
children when the entity has no existing (truthy) `ospfAreaConfig` makes the
produced list contain the container-creation operation (a replace of the
empty dict at the sub-structure's path, line 839-840), and every operation
preceding it in list order is addressed at none of the child paths under
that sub-structure — so the container creation strictly precedes every
child-field operation. -/
theorem claim_C3_container_before_children {env : Env} {p : Params} {l3outs : List Dict}
    {ck : Bool} {f : Found} {ops : List Op} {req : Option (List Op)} {o : OspfCfg}
    (hloc : locate p l3outs = some f)
    (hospf : p.ospf.collapse = some o)
    (hnone : (dget f.details "ospfAreaConfig").truthy = false)
    (hrun : runPresent env p l3outs ck = .ok (ops, req)) :
    ∃ l1 l2,
      ops = l1 ++ ⟨"replace", attrsPath f.index ++ "/ospfAreaConfig", some (.obj [])⟩ :: l2 ∧
      ∀ op2 ∈ l1, ∀ suf ∈ ospfChildSufs, op2.path ≠ attrsPath f.index ++ suf := by
  obtain ⟨hpres, -⟩ := runPresent_ok hrun
  obtain ⟨vr, hvr, hupd⟩ := presentRun_update hloc hpres
  rw [hospf] at hupd
  obtain ⟨o2, o3, o4, o5, o6, k2, k3, k4, k5, k6, rfl⟩ := updateOps_ok hupd
  have hex : (dget (defaultRouteLeakExisting o f.details) "ospfAreaConfig").truthy = false := by
    rw [dget_defaultRouteLeakExisting o f.details (by decide)]
    exact hnone
  refine ⟨updateScalarOps p f.details (attrsPath f.index) (nameVOf p f.details) vr
      (routingProtocols true p.bgp.collapse (some o)) ++ o2 ++ o3 ++ o4 ++ o5 ++ o6 ++
      defaultRouteLeakOps o f.details (attrsPath f.index),
    ospfAreaChildOps o (defaultRouteLeakExisting o f.details) (attrsPath f.index), ?_, ?_⟩
  · simp only [ospfChoiceOps, ospfUpdateOps_container hex]
    simp [List.append_assoc]
  · intro op2 hop2
    simp only [List.mem_append] at hop2
    rcases hop2 with ((((((h1 | h1) | h1) | h1) | h1) | h1) | h1)
    · exact paths_ne_of_sufs (updateScalarOps_sufs p f.details (attrsPath f.index)
        (nameVOf p f.details) vr (routingProtocols true p.bgp.collapse (some o)))
        (by decide) op2 h1
    · exact paths_ne_of_sufs (routeMapFieldOps_sufs _ _ k2) (by decide) op2 h1
    · exact paths_ne_of_sufs (routeMapFieldOps_sufs _ _ k3) (by decide) op2 h1
    · exact paths_ne_of_sufs (routeMapFieldOps_sufs _ _ k4) (by decide) op2 h1
    · exact paths_ne_of_sufs (routeMapFieldOps_sufs _ _ k5) (by decide) op2 h1
    · exact paths_ne_of_sufs (bgpUpdateOps_paths k6) (by decide) op2 h1
    · exact paths_ne_of_sufs (defaultRouteLeakOps_sufs o f.details (attrsPath f.index))
        (by decide) op2 h1

/-- Witness for C3: with `ospf` children on an entity without
`ospfAreaConfig`, the run emits the derived-protocol write, the container
creation and the three child writes, in that order, and the container
decomposition of the claim holds at this input. -/
theorem claim_C3_witness :
    runPresent envNil paramsOspfChildren [entityPim] false =
      .ok ([⟨"replace", attrsPath 0 ++ "/routingProtocol", some (.str "ospf")⟩,
            ⟨"replace", attrsPath 0 ++ "/ospfAreaConfig", some (.obj [])⟩,
            ⟨"replace", attrsPath 0 ++ "/ospfAreaConfig/cost", some (.int 10)⟩,
            ⟨"replace", attrsPath 0 ++ "/ospfAreaConfig/id", some (.str "0.0.0.1")⟩,
            ⟨"replace", attrsPath 0 ++ "/ospfAreaConfig/areaType", some (.str "regular")⟩],
           some [⟨"replace", attrsPath 0 ++ "/routingProtocol", some (.str "ospf")⟩,
            ⟨"replace", attrsPath 0 ++ "/ospfAreaConfig", some (.obj [])⟩,
            ⟨"replace", attrsPath 0 ++ "/ospfAreaConfig/cost", some (.int 10)⟩,
            ⟨"replace", attrsPath 0 ++ "/ospfAreaConfig/id", some (.str "0.0.0.1")⟩,
            ⟨"replace", attrsPath 0 ++ "/ospfAreaConfig/areaType",
              some (.str "regular")⟩]) ∧
    (∃ l1 l2 : List Op,
      [⟨"replace", attrsPath 0 ++ "/routingProtocol", some (.str "ospf")⟩,
       ⟨"replace", attrsPath 0 ++ "/ospfAreaConfig", some (.obj [])⟩,
       ⟨"replace", attrsPath 0 ++ "/ospfAreaConfig/cost", some (.int 10)⟩,
       ⟨"replace", attrsPath 0 ++ "/ospfAreaConfig/id", some (.str "0.0.0.1")⟩,
       ⟨"replace", attrsPath 0 ++ "/ospfAreaConfig/areaType", some (.str "regular")⟩] =
        l1 ++ ⟨"replace", attrsPath 0 ++ "/ospfAreaConfig", some (.obj [])⟩ :: l2 ∧
      ∀ op2 ∈ l1, ∀ suf ∈ ospfChildSufs, op2.path ≠ attrsPath 0 ++ suf) := by
  have hloc : locate paramsOspfChildren [entityPim] = some ⟨0, entityPim⟩ := by rfl
  have hrun : runPresent envNil paramsOspfChildren [entityPim] false =
      .ok ([⟨"replace", attrsPath 0 ++ "/routingProtocol", some (.str "ospf")⟩,
            ⟨"replace", attrsPath 0 ++ "/ospfAreaConfig", some (.obj [])⟩,
            ⟨"replace", attrsPath 0 ++ "/ospfAreaConfig/cost", some (.int 10)⟩,
            ⟨"replace", attrsPath 0 ++ "/ospfAreaConfig/id", some (.str "0.0.0.1")⟩,
            ⟨"replace", attrsPath 0 ++ "/ospfAreaConfig/areaType", some (.str "regular")⟩],
           some [⟨"replace", attrsPath 0 ++ "/routingProtocol", some (.str "ospf")⟩,
            ⟨"replace", attrsPath 0 ++ "/ospfAreaConfig", some (.obj [])⟩,
            ⟨"replace", attrsPath 0 ++ "/ospfAreaConfig/cost", some (.int 10)⟩,
            ⟨"replace", attrsPath 0 ++ "/ospfAreaConfig/id", some (.str "0.0.0.1")⟩,
            ⟨"replace", attrsPath 0 ++ "/ospfAreaConfig/areaType",
              some (.str "regular")⟩]) := by rfl
  exact ⟨hrun, claim_C3_container_before_children hloc rfl (by rfl) hrun⟩

theorem lookup_dset_ne {d : Dict} {k k2 : String} (h : k2 ≠ k) (v : Val) :
    (dset d k v).lookup k2 = d.lookup k2 := by
  induction d with
  | nil =>
    have h3 : (k2 == k) = false := by
      simp
      intro hc
      exact h hc
    simp [dset, List.lookup, h3]
  | cons kv rest ih =>
    obtain ⟨a, b⟩ := kv
    simp only [dset]
    by_cases hak : a = k
    · rw [if_pos hak]
      subst hak
      have h3 : (k2 == a) = false := by
        simp
        intro hc
        exact h hc
      simp [List.lookup, h3]
    · rw [if_neg hak]
      by_cases hk2 : a = k2
      · simp [List.lookup, hk2]
      · have h3 : (k2 == a) = false := by
          simp
          intro hc
          exact hk2 hc.symm
        simp only [List.lookup, h3]
        exact ih

theorem lookup_ite_dset_ne {d : Dict} {c : Prop} [Decidable c] {k k2 : String}
    (h : k2 ≠ k) (v : Val) :
    (if c then dset d k v else d).lookup k2 = d.lookup k2 := by
  split
  · exact lookup_dset_ne h v
  · rfl

theorem dsetNested_lookup_frame {d : Dict} {k k2 : String} {v : Val} {d2 : Dict}
    (h : dsetNested d k k2 v = .ok d2) {k3 : String} (hk : k3 ≠ k) :
    d2.lookup k3 = d.lookup k3 := by
  simp only [dsetNested] at h
  split at h
  · cases h
    exact lookup_dset_ne hk _
  · cases h
  · cases h

theorem addRouteMapRef_lookup_frame {env : Env} {param : Option String} {key : String}
    {d d2 : Dict} (h : addRouteMapRef env param key d = .ok d2) {k : String} (hk : k ≠ key) :
    d2.lookup k = d.lookup k := by
  simp only [addRouteMapRef] at h
  split at h
  · split at h
    · cases h
    · cases h
      exact lookup_dset_ne hk _
  · cases h
    rfl

theorem addDampeningRef_lookup_frame {env : Env} {param : Option String} {key : String}
    {d d2 : Dict} (h : addDampeningRef env param key d = .ok d2) {k : String}
    (hk : k ≠ "advancedRouteMapRefs") :
    d2.lookup k = d.lookup k := by
  simp only [addDampeningRef] at h
  split at h
  · split at h
    · cases h
    · exact dsetNested_lookup_frame h hk
  · cases h
    rfl

theorem createBgpPart_lookup_frame {env : Env} {b : BgpCfg} {payload pl2 : Dict}
    (h : createBgpPart env b payload = .ok pl2) {k : String}
    (hk1 : k ≠ "importRouteMapRef") (hk2 : k ≠ "importRouteControl")
    (hk3 : k ≠ "exportRouteMapRef") (hk4 : k ≠ "advancedRouteMapRefs") :
    pl2.lookup k = payload.lookup k := by
  simp only [createBgpPart] at h
  split at h
  · cases h
  next p1 h1 =>
    split at h
    · cases h
    next p3 h3 =>
      split at h
      · cases h
      next p4 h4 =>
        rw [addDampeningRef_lookup_frame h hk4, addDampeningRef_lookup_frame h4 hk4,
          addRouteMapRef_lookup_frame h3 hk3, lookup_dset_ne hk2,
          addRouteMapRef_lookup_frame h1 hk1]

theorem createOspfPart_lookup_frame (o : OspfCfg) (payload : Dict) {k : String}
    (h1 : k ≠ "ospfAreaConfig") (h2 : k ≠ "defaultRouteLeak") :
    (createOspfPart o payload).lookup k = payload.lookup k := by
  simp only [createOspfPart]
  by_cases hc : (ospfDrlDict o).isEmpty = true
  · rw [if_pos hc]
    exact lookup_dset_ne h1 _
  · rw [if_neg hc, lookup_dset_ne h2, lookup_dset_ne h1]

theorem createOuterRouteMaps_none {env : Env} {p : Params}
    (hint : p.interleak = none) (hstat : p.static_route_redistribution = none)
    (hconn : p.connected_route_redistribution = none)
    (hatt : p.attached_host_route_redistribution = none) :
    createOuterRouteMaps env p = .ok [] := by
  simp [createOuterRouteMaps, addRouteMapRef, hint, hstat, hconn, hatt, strOptTruthy]

theorem createScalarPayload_lookup_none (p : Params) (n : String) (vr rp : Option String)
    {k : String} (h1 : k ≠ "description") (h2 : k ≠ "l3domain") (h3 : k ≠ "targetDscp")
    (h4 : k ≠ "pim") (h5 : k ≠ "routingProtocol") (h6 : k ≠ "name") (h7 : k ≠ "vrfRef") :
    (createScalarPayload p n vr rp).lookup k = none := by
  have e6 : (k == "name") = false := by
    simp
    intro hc
    exact h6 hc
  have e7 : (k == "vrfRef") = false := by
    simp
    intro hc
    exact h7 hc
  simp only [createScalarPayload]
  rw [lookup_ite_dset_ne h5]
  rcases p.pim with _ | b
  · simp only []
    rw [lookup_ite_dset_ne h3, lookup_ite_dset_ne h2, lookup_ite_dset_ne h1]
    simp [List.lookup, e6, e7]
  · simp only []
    rw [lookup_dset_ne h4, lookup_ite_dset_ne h3, lookup_ite_dset_ne h2,
      lookup_ite_dset_ne h1]
    simp [List.lookup, e6, e7]

theorem createScalarPayload_lookup_name (p : Params) (n : String) (vr rp : Option String) :
    (createScalarPayload p n vr rp).lookup "name" = some (.str n) := by
  simp only [createScalarPayload]
  rw [lookup_ite_dset_ne (by decide : ("name" : String) ≠ "routingProtocol")]
  rcases p.pim with _ | b
  · simp only []
    rw [lookup_ite_dset_ne (by decide : ("name" : String) ≠ "targetDscp"),
      lookup_ite_dset_ne (by decide : ("name" : String) ≠ "l3domain"),
      lookup_ite_dset_ne (by decide : ("name" : String) ≠ "description")]
    rfl
  · simp only []
    rw [lookup_dset_ne (by decide : ("name" : String) ≠ "pim"),
      lookup_ite_dset_ne (by decide : ("name" : String) ≠ "targetDscp"),
      lookup_ite_dset_ne (by decide : ("name" : String) ≠ "l3domain"),
      lookup_ite_dset_ne (by decide : ("name" : String) ≠ "description")]
    rfl

theorem createScalarPayload_lookup_vrfRef (p : Params) (n : String) (vr rp : Option String) :
    (createScalarPayload p n vr rp).lookup "vrfRef" = some (optValStr vr) := by
  simp only [createScalarPayload]
  rw [lookup_ite_dset_ne (by decide : ("vrfRef" : String) ≠ "routingProtocol")]
  rcases p.pim with _ | b
  · simp only []
    rw [lookup_ite_dset_ne (by decide : ("vrfRef" : String) ≠ "targetDscp"),
      lookup_ite_dset_ne (by decide : ("vrfRef" : String) ≠ "l3domain"),
      lookup_ite_dset_ne (by decide : ("vrfRef" : String) ≠ "description")]
    rfl
  · simp only []
    rw [lookup_dset_ne (by decide : ("vrfRef" : String) ≠ "pim"),
      lookup_ite_dset_ne (by decide : ("vrfRef" : String) ≠ "targetDscp"),
      lookup_ite_dset_ne (by decide : ("vrfRef" : String) ≠ "l3domain"),
      lookup_ite_dset_ne (by decide : ("vrfRef" : String) ≠ "description")]
    rfl

theorem createScalarPayload_lookup_description {p : Params} (n : String) (vr rp : Option String)
    (h : p.description = none) :
    (createScalarPayload p n vr rp).lookup "description" = none := by
  simp only [createScalarPayload]
  rw [lookup_ite_dset_ne (by decide : ("description" : String) ≠ "routingProtocol")]
  rcases p.pim with _ | b
  · simp only []
    rw [lookup_ite_dset_ne (by decide : ("description" : String) ≠ "targetDscp"),
      lookup_ite_dset_ne (by decide : ("description" : String) ≠ "l3domain"),
      if_neg (by simp [h, strOptTruthy])]
    rfl
  · simp only []
    rw [lookup_dset_ne (by decide : ("description" : String) ≠ "pim"),
      lookup_ite_dset_ne (by decide : ("description" : String) ≠ "targetDscp"),
      lookup_ite_dset_ne (by decide : ("description" : String) ≠ "l3domain"),
      if_neg (by simp [h, strOptTruthy])]
    rfl

theorem createScalarPayload_lookup_l3domain {p : Params} (n : String) (vr rp : Option String)
    (h : p.l3_domain = none) :
    (createScalarPayload p n vr rp).lookup "l3domain" = none := by
  simp only [createScalarPayload]
  rw [lookup_ite_dset_ne (by decide : ("l3domain" : String) ≠ "routingProtocol")]
  rcases p.pim with _ | b
  · simp only []
    rw [lookup_ite_dset_ne (by decide : ("l3domain" : String) ≠ "targetDscp"),
      if_neg (by simp [h, strOptTruthy]),
      lookup_ite_dset_ne (by decide : ("l3domain" : String) ≠ "description")]
    rfl
  · simp only []
    rw [lookup_dset_ne (by decide : ("l3domain" : String) ≠ "pim"),
      lookup_ite_dset_ne (by decide : ("l3domain" : String) ≠ "targetDscp"),
      if_neg (by simp [h, strOptTruthy]),
      lookup_ite_dset_ne (by decide : ("l3domain" : String) ≠ "description")]
    rfl

theorem createScalarPayload_lookup_targetDscp {p : Params} (n : String) (vr rp : Option String)
    (h : p.target_dscp = none) :
    (createScalarPayload p n vr rp).lookup "targetDscp" = none := by
  simp only [createScalarPayload]
  rw [lookup_ite_dset_ne (by decide : ("targetDscp" : String) ≠ "routingProtocol")]
  rcases p.pim with _ | b
  · simp only []
    rw [if_neg (by simp [h, strOptTruthy]),
      lookup_ite_dset_ne (by decide : ("targetDscp" : String) ≠ "l3domain"),
      lookup_ite_dset_ne (by decide : ("targetDscp" : String) ≠ "description")]
    rfl
  · simp only []
    rw [lookup_dset_ne (by decide : ("targetDscp" : String) ≠ "pim"),
      if_neg (by simp [h, strOptTruthy]),
      lookup_ite_dset_ne (by decide : ("targetDscp" : String) ≠ "l3domain"),
      lookup_ite_dset_ne (by decide : ("targetDscp" : String) ≠ "description")]
    rfl

theorem createScalarPayload_lookup_pim {p : Params} (n : String) (vr rp : Option String)
    (h : p.pim = none) :
    (createScalarPayload p n vr rp).lookup "pim" = none := by
  simp only [createScalarPayload, h]
  rw [lookup_ite_dset_ne (by decide : ("pim" : String) ≠ "routingProtocol"),
    lookup_ite_dset_ne (by decide : ("pim" : String) ≠ "targetDscp"),
    lookup_ite_dset_ne (by decide : ("pim" : String) ≠ "l3domain"),
    lookup_ite_dset_ne (by decide : ("pim" : String) ≠ "description")]
  rfl

theorem createScalarPayload_lookup_rp {p : Params} (n : String) (vr rp : Option String)
    (h : strOptTruthy rp = false) :
    (createScalarPayload p n vr rp).lookup "routingProtocol" = none := by
  simp only [createScalarPayload]
  rw [if_neg (by simp [h])]
  rcases p.pim with _ | b
  · simp only []
    rw [lookup_ite_dset_ne (by decide : ("routingProtocol" : String) ≠ "targetDscp"),
      lookup_ite_dset_ne (by decide : ("routingProtocol" : String) ≠ "l3domain"),
      lookup_ite_dset_ne (by decide : ("routingProtocol" : String) ≠ "description")]
    rfl
  · simp only []
    rw [lookup_dset_ne (by decide : ("routingProtocol" : String) ≠ "pim"),
      lookup_ite_dset_ne (by decide : ("routingProtocol" : String) ≠ "targetDscp"),
      lookup_ite_dset_ne (by decide : ("routingProtocol" : String) ≠ "l3domain"),
      lookup_ite_dset_ne (by decide : ("routingProtocol" : String) ≠ "description")]
    rfl

theorem vrfResolve_some {env : Env} {p : Params} {v : VrfRef} {vo : VrfObj}
    {vr : Option String} (hv : p.vrf = some v) (hvo : env.vrfs.lookup v = some vo)
    (h : vrfResolve env p = .ok vr) : vr = some vo.uuid := by
  simp only [vrfResolve, hv, get_vrf_object, hvo] at h
  split at h
  · cases h
  · cases h
    rfl

theorem presentRun_create {env : Env} {p : Params} {l3outs : List Dict} {ops : List Op}
    {n : String} (hloc : locate p l3outs = none) (hname : p.name = some n) (hn : n ≠ "")
    (h : presentRun env p l3outs = .ok ops) :
    ∃ vr payload,
      vrfResolve env p = .ok vr ∧
      createPayload env p n vr p.bgp.collapse p.ospf.collapse
        (routingProtocols false p.bgp.collapse p.ospf.collapse) = .ok payload ∧
      ops = [⟨"add", "/l3outTemplate/l3outs/-", some (.obj payload)⟩] := by
  simp only [presentRun, hloc] at h
  by_cases hu : strOptTruthy p.uuid = true
  · rw [if_pos ⟨hu, trivial⟩] at h
    cases h
  · rw [if_neg (by simp [hu])] at h
    split at h
    · cases h
    next vr hvr =>
      rw [if_pos (by simp [hname, strOptTruthy, hn])] at h
      simp only [hname, Option.getD] at h
      split at h
      · cases h
      next payload hpl =>
        cases h
        exact ⟨vr, payload, hvr, hpl, rfl⟩

theorem createPayload_ok {env : Env} {p : Params} {n : String} {vr : Option String}
    {bgp : Option BgpCfg} {ospf : Option OspfCfg} {rp : Option String} {pl : Dict}
    (h : createPayload env p n vr bgp ospf rp = .ok pl) :
    ∃ outer pl7,
      createOuterRouteMaps env p = .ok outer ∧
      createBgpPartOpt env bgp
        (if ¬outer.isEmpty then
          dset (createScalarPayload p n vr rp) "advancedRouteMapRefs" (.obj outer)
        else createScalarPayload p n vr rp) = .ok pl7 ∧
      pl = createOspfPartOpt ospf pl7 := by
  simp only [createPayload] at h
  split at h
  · cases h
  next outer houter =>
    split at h
    · cases h
    next pl7 h7 =>
      cases h
      exact ⟨outer, pl7, houter, h7, rfl⟩

theorem createOspfPartOpt_lookup_frame (ospf : Option OspfCfg) (pl7 : Dict) {k : String}
    (h1 : k ≠ "ospfAreaConfig") (h2 : k ≠ "defaultRouteLeak") :
    (createOspfPartOpt ospf pl7).lookup k = pl7.lookup k := by
  cases ospf
  · rfl
  · exact createOspfPart_lookup_frame _ _ h1 h2

theorem createBgpPartOpt_lookup_frame {env : Env} {bgp : Option BgpCfg} {payload pl7 : Dict}
    (h : createBgpPartOpt env bgp payload = .ok pl7) {k : String}
    (hk1 : k ≠ "importRouteMapRef") (hk2 : k ≠ "importRouteControl")
    (hk3 : k ≠ "exportRouteMapRef") (hk4 : k ≠ "advancedRouteMapRefs") :
    pl7.lookup k = payload.lookup k := by
  cases bgp
  · cases h
    rfl
  · exact createBgpPart_lookup_frame h hk1 hk2 hk3 hk4

theorem createBgpPartOpt_none {env : Env} {payload pl7 : Dict}
    (h : createBgpPartOpt env none payload = .ok pl7) : pl7 = payload := by
  cases h
  rfl

/-- Claim C6: in create mode the new entity payload is a sparse dict: it
always carries `name` and the `vrfRef` resolved from the supplied `vrf`
parameter, and a field absent from the input is absent from the payload
(not defaulted); the operation list is exactly one add at the
collection-append path (the l3outs sequence with the trailing dash,
lines 501-519 and 634-635). -/
theorem claim_C6_create_sparse {env : Env} {p : Params} {l3outs : List Dict}
    {ck : Bool} {ops : List Op} {req : Option (List Op)} {n : String}
    (hloc : locate p l3outs = none)
    (hname : p.name = some n) (hn : n ≠ "")
    (hrun : runPresent env p l3outs ck = .ok (ops, req)) :
    ∃ payload : Dict,
      ops = [⟨"add", "/l3outTemplate/l3outs/-", some (.obj payload)⟩] ∧
      payload.lookup "name" = some (.str n) ∧
      (∀ v vo, p.vrf = some v → env.vrfs.lookup v = some vo →
        payload.lookup "vrfRef" = some (.str vo.uuid)) ∧
      (p.description = none → payload.lookup "description" = none) ∧
      (p.l3_domain = none → payload.lookup "l3domain" = none) ∧
      (p.target_dscp = none → payload.lookup "targetDscp" = none) ∧
      (p.pim = none → payload.lookup "pim" = none) ∧
      (p.bgp = .absent → p.ospf = .absent →
        payload.lookup "routingProtocol" = none ∧
        payload.lookup "ospfAreaConfig" = none ∧
        payload.lookup "importRouteControl" = none) ∧
      (p.interleak = none → p.static_route_redistribution = none →
       p.connected_route_redistribution = none →
       p.attached_host_route_redistribution = none → p.bgp = .absent →
        payload.lookup "advancedRouteMapRefs" = none) := by
  obtain ⟨hpres, -⟩ := runPresent_ok hrun
  obtain ⟨vr, payload, hvr, hpl, rfl⟩ := presentRun_create hloc hname hn hpres
  obtain ⟨outer, pl7, houter, h7, rfl⟩ := createPayload_ok hpl
  refine ⟨_, rfl, ?_, ?_, ?_, ?_, ?_, ?_, ?_, ?_⟩
  · rw [createOspfPartOpt_lookup_frame _ _ (by decide) (by decide),
      createBgpPartOpt_lookup_frame h7 (by decide) (by decide) (by decide) (by decide),
      lookup_ite_dset_ne (by decide : ("name" : String) ≠ "advancedRouteMapRefs"),
      createScalarPayload_lookup_name]
  · intro v vo hv hvo
    rw [createOspfPartOpt_lookup_frame _ _ (by decide) (by decide),
      createBgpPartOpt_lookup_frame h7 (by decide) (by decide) (by decide) (by decide),
      lookup_ite_dset_ne (by decide : ("vrfRef" : String) ≠ "advancedRouteMapRefs"),
      createScalarPayload_lookup_vrfRef, vrfResolve_some hv hvo hvr]
    rfl
  · intro h0
    rw [createOspfPartOpt_lookup_frame _ _ (by decide) (by decide),
      createBgpPartOpt_lookup_frame h7 (by decide) (by decide) (by decide) (by decide),
      lookup_ite_dset_ne (by decide : ("description" : String) ≠ "advancedRouteMapRefs"),
      createScalarPayload_lookup_description _ _ _ h0]
  · intro h0
    rw [createOspfPartOpt_lookup_frame _ _ (by decide) (by decide),
      createBgpPartOpt_lookup_frame h7 (by decide) (by decide) (by decide) (by decide),
      lookup_ite_dset_ne (by decide : ("l3domain" : String) ≠ "advancedRouteMapRefs"),
      createScalarPayload_lookup_l3domain _ _ _ h0]
  · intro h0
    rw [createOspfPartOpt_lookup_frame _ _ (by decide) (by decide),
      createBgpPartOpt_lookup_frame h7 (by decide) (by decide) (by decide) (by decide),
      lookup_ite_dset_ne (by decide : ("targetDscp" : String) ≠ "advancedRouteMapRefs"),
      createScalarPayload_lookup_targetDscp _ _ _ h0]
  · intro h0
    rw [createOspfPartOpt_lookup_frame _ _ (by decide) (by decide),
      createBgpPartOpt_lookup_frame h7 (by decide) (by decide) (by decide) (by decide),
      lookup_ite_dset_ne (by decide : ("pim" : String) ≠ "advancedRouteMapRefs"),
      createScalarPayload_lookup_pim _ _ _ h0]
  · intro hb ho
    have hbc : p.bgp.collapse = none := by rw [hb]; rfl
    have hoc : p.ospf.collapse = none := by rw [ho]; rfl
    refine ⟨?_, ?_, ?_⟩
    · rw [createOspfPartOpt_lookup_frame _ _ (by decide) (by decide),
        createBgpPartOpt_lookup_frame h7 (by decide) (by decide) (by decide) (by decide),
        lookup_ite_dset_ne
          (by decide : ("routingProtocol" : String) ≠ "advancedRouteMapRefs"),
        createScalarPayload_lookup_rp]
      rw [hbc, hoc]
      rfl
    · rw [hoc]
      simp only [createOspfPartOpt]
      have hp := createBgpPartOpt_none (hbc ▸ h7)
      subst hp
      rw [lookup_ite_dset_ne
          (by decide : ("ospfAreaConfig" : String) ≠ "advancedRouteMapRefs")]
      exact createScalarPayload_lookup_none _ _ _ _ (by decide) (by decide) (by decide)
        (by decide) (by decide) (by decide) (by decide)
    · rw [createOspfPartOpt_lookup_frame _ _ (by decide) (by decide)]
      have hp := createBgpPartOpt_none (hbc ▸ h7)
      subst hp
      rw [lookup_ite_dset_ne
          (by decide : ("importRouteControl" : String) ≠ "advancedRouteMapRefs")]
      exact createScalarPayload_lookup_none _ _ _ _ (by decide) (by decide) (by decide)
        (by decide) (by decide) (by decide) (by decide)
  · intro h1 h2 h3 h4 hb
    have hbc : p.bgp.collapse = none := by rw [hb]; rfl
    have houter2 : outer = [] := by
      have h0 := (createOuterRouteMaps_none h1 h2 h3 h4).symm.trans houter
      cases h0
      rfl
    subst houter2
    have hp := createBgpPartOpt_none (hbc ▸ h7)
    subst hp
    rw [createOspfPartOpt_lookup_frame _ _ (by decide) (by decide),
      if_neg (by simp)]
    exact createScalarPayload_lookup_none _ _ _ _ (by decide) (by decide) (by decide)
      (by decide) (by decide) (by decide) (by decide)

/-- Witness for C6: the spec scenario — creating `l3out_1` with a resolved
VRF reference `V1` and no other fields yields exactly the one add of the
two-field sparse payload. -/
theorem claim_C6_witness :
    runPresent envVrf paramsCreate [] false =
      .ok ([⟨"add", "/l3outTemplate/l3outs/-",
             some (.obj [("name", .str "l3out_1"), ("vrfRef", .str "V1")])⟩],
           some [⟨"add", "/l3outTemplate/l3outs/-",
             some (.obj [("name", .str "l3out_1"), ("vrfRef", .str "V1")])⟩]) ∧
    (∃ payload : Dict,
      [(⟨"add", "/l3outTemplate/l3outs/-",
        some (.obj [("name", Val.str "l3out_1"), ("vrfRef", Val.str "V1")])⟩ : Op)] =
        [⟨"add", "/l3outTemplate/l3outs/-", some (.obj payload)⟩] ∧
      payload.lookup "name" = some (.str "l3out_1") ∧
      payload.lookup "vrfRef" = some (.str "V1") ∧
      payload.lookup "description" = none ∧
      payload.lookup "ospfAreaConfig" = none ∧
      payload.lookup "advancedRouteMapRefs" = none) := by
  have hrun : runPresent envVrf paramsCreate [] false =
      .ok ([⟨"add", "/l3outTemplate/l3outs/-",
             some (.obj [("name", .str "l3out_1"), ("vrfRef", .str "V1")])⟩],
           some [⟨"add", "/l3outTemplate/l3outs/-",
             some (.obj [("name", .str "l3out_1"), ("vrfRef", .str "V1")])⟩]) := by rfl
  obtain ⟨payload, hops, hname2, hvrf2, hdesc2, -, -, -, hrp2, hadv2⟩ :=
    claim_C6_create_sparse (by rfl) rfl (by decide) hrun
  refine ⟨hrun, payload, hops, hname2, ?_, hdesc2 rfl, (hrp2 rfl rfl).2.1,
    hadv2 rfl rfl rfl rfl rfl⟩
  have h := hvrf2 vrfTriple ⟨"V1", some true⟩ rfl (by rfl)
  exact h

/-- Claim C1 (code bug): the claim states that with the ospf parameter
entirely absent the update run leaves `ospfAreaConfig` untouched and emits
no operation referencing its path, the three input states staying
distinguishable. The code does the opposite: line 421 collapses the absent
parameter into the same falsy empty dict as an explicit `ospf = {}` (the
module documentation reserves the empty dict as the explicit clearing
request), and lines 877-880 then emit the remove. At the failing input —
update by `uuid` with `ospf` never given, against an entity carrying an
`ospfAreaConfig` — the produced list is exactly the remove at the
`ospfAreaConfig` path, identical to the explicitly-cleared run. -/
theorem claim_C1_absent_ospf_not_preserved :
    paramsUuidOnly.ospf = SubIn.absent ∧
    paramsOspfEmpty.ospf = SubIn.empty ∧
    runPresent envNil paramsUuidOnly [entityOspf] false =
      .ok ([⟨"remove", attrsPath 0 ++ "/ospfAreaConfig", none⟩],
           some [⟨"remove", attrsPath 0 ++ "/ospfAreaConfig", none⟩]) ∧
    runPresent envNil paramsUuidOnly [entityOspf] false =
      runPresent envNil paramsOspfEmpty [entityOspf] false :=
  ⟨rfl, rfl, by rfl, by rfl⟩

/-- Counterexample to C7 as stated: a delete (absent-state) invocation whose
uuid-based lookup yields nothing does NOT fail with NotFound — the absent
branch cannot fail at all (its result type carries no error); it returns
successfully with no operations and no mutation request (lines 887-890). -/
theorem claim_C7_counterexample :
    runAbsent paramsMissing [entityD0] false = ([], none) := by rfl

/-- Claim C7 as amended: in update mode (state=present with a truthy uuid),
a lookup that yields no entity fails with NotFound immediately (lines
469-471), before any operation is built and before any mutation request; in
delete mode (state=absent), a lookup that yields nothing produces no
operations and no mutation request, without failing. -/
theorem claim_C7_not_found_amended {env : Env} {p p2 : Params}
    {l3outs l3outs2 : List Dict} {ck ck2 : Bool}
    (hu : strOptTruthy p.uuid = true) (hloc : locate p l3outs = none)
    (hloc2 : locate p2 l3outs2 = none) :
    runPresent env p l3outs ck = .error (.notFound (p.uuid.getD "")) ∧
    runAbsent p2 l3outs2 ck2 = ([], none) := by
  constructor
  · simp only [runPresent, presentRun, hloc]
    rw [if_pos ⟨hu, trivial⟩]
  · by_cases he : l3outs2.isEmpty = true <;>
      simp [runAbsent, absentOps, hloc2, he, submit]

/-- Witness for C7 (amended): concrete runs — present with an unmatched
uuid fails NotFound; absent with an unmatched uuid is a silent no-op. -/
theorem claim_C7_witness :
    runPresent envNil paramsMissing [entityD0] false = .error (.notFound "missing") ∧
    runAbsent paramsMissing [entityD0] false = ([], none) := by
  exact claim_C7_not_found_amended rfl (by rfl) (by rfl)

/-- Claim C8: a present-state invocation that requests `pim` enabled while
the supplied `vrf` resolves to an object with L3 multicast disabled fails
with ValidationConflict (lines 479-487); because the check sits before the
create and update branches and the run is fail-fast, the failure precedes
any operation building and any mutation request (the error result carries
neither). -/
theorem claim_C8_pim_multicast_conflict {env : Env} {p : Params} {l3outs : List Dict}
    {ck : Bool} {v : VrfRef} {vo : VrfObj}
    (hv : p.vrf = some v) (hvo : env.vrfs.lookup v = some vo)
    (hmcast : vo.l3MCast = some false) (hpim : p.pim = some true)
    (hguard : ¬(strOptTruthy p.uuid = true ∧ locate p l3outs = none)) :
    runPresent env p l3outs ck = .error .validationConflict := by
  have hres : vrfResolve env p = .error .validationConflict := by
    simp only [vrfResolve, hv, get_vrf_object, hvo]
    rw [if_pos ⟨by simp [hpim, boolOptTruthy], hmcast⟩]
  simp only [runPresent, presentRun, hres]
  rw [if_neg hguard]

/-- Witness for C8: creating with `pim = true` and a VRF whose multicast is
disabled aborts with the conflict. -/
theorem claim_C8_witness :
    runPresent envMcastOff paramsPimVrf [] false = .error .validationConflict := by
  exact claim_C8_pim_multicast_conflict rfl (by rfl) rfl rfl (by simp [paramsPimVrf,
    strOptTruthy])

/-- Claim C9: for every invocation, an empty operation list means no
mutation request is sent, and in check (dry-run) mode the operation list is
computed and returned but never submitted; when a request is sent it
carries exactly the computed list (lines 892-894). -/
theorem claim_C9_submit_guard {env : Env} {p p2 : Params} {l3outs l3outs2 : List Dict}
    {ck ck2 : Bool} {ops ops2 : List Op} {req req2 : Option (List Op)}
    (h1 : runPresent env p l3outs ck = .ok (ops, req))
    (h2 : runAbsent p2 l3outs2 ck2 = (ops2, req2)) :
    (ops = [] → req = none) ∧ (ck = true → req = none) ∧
    (req = some ops ∨ req = none) ∧
    (ops2 = [] → req2 = none) ∧ (ck2 = true → req2 = none) ∧
    (req2 = some ops2 ∨ req2 = none) := by
  obtain ⟨-, hreq⟩ := runPresent_ok h1
  subst hreq
  simp only [runAbsent] at h2
  cases h2
  refine ⟨?_, ?_, ?_, ?_, ?_, ?_⟩
  · intro h
    simp [submit, h]
  · intro h
    simp [submit, h]
  · unfold submit
    split
    · exact Or.inl rfl
    · exact Or.inr rfl
  · intro h
    simp [submit, h]
  · intro h
    simp [submit, h]
  · unfold submit
    split
    · exact Or.inl rfl
    · exact Or.inr rfl

/-- Witness for C9: a check-mode present run computes its one replace but
sends nothing, and an absent run with no match sends nothing. -/
theorem claim_C9_witness :
    runPresent envNil paramsDesc [entityD0, entityD1, entityD2] true =
      .ok ([⟨"replace", attrsPath 2 ++ "/description", some (.str "b")⟩], none) ∧
    runAbsent paramsMissing [entityD0] false = ([], none) ∧
    (true = true → (none : Option (List Op)) = none) := by
  have h1 : runPresent envNil paramsDesc [entityD0, entityD1, entityD2] true =
      .ok ([⟨"replace", attrsPath 2 ++ "/description", some (.str "b")⟩], none) := by rfl
  have h2 : runAbsent paramsMissing [entityD0] false = ([], none) := by rfl
  exact ⟨h1, h2, (claim_C9_submit_guard h1 h2).2.1⟩

end NdoL3out
